import Mathlib

/-!
# ETC2TextureLoader: the compressed-texture mip walk of `src/jni/texture.c`

A shallow embedding of `LoadTexturePVRTC` and `LoadTextureS3TC`, of `LoadTexturePNG`, of
the capability probes `IsETCSupported` / `IsETC2Supported`, and of the texture block of `Init`
in `src/jni/jni_main.c`.

* C `unsigned int` values are natural numbers; every operation that can wrap is
  written with an explicit `% 4294967296` (2^32).
* The GL context is modelled by the trace of GL calls a loader issues.
* The data pointer handed to `glCompressedTexImage2D` is recorded as its byte
  offset from `pData`, the start of the asset returned by `ReadFile`.
* `CheckGlError` only logs and `free` only releases the buffer; neither is part of the trace.
-/

set_option linter.unusedVariables false

namespace ETC2TextureLoader

/-! ## Constants -/

-- texture.c:42-45
def GL_COMPRESSED_RGB_PVRTC_4BPPV1_IMG : Nat := 0x8C00
def GL_COMPRESSED_RGB_PVRTC_2BPPV1_IMG : Nat := 0x8C01
def GL_COMPRESSED_RGBA_PVRTC_4BPPV1_IMG : Nat := 0x8C02
def GL_COMPRESSED_RGBA_PVRTC_2BPPV1_IMG : Nat := 0x8C03

-- texture.c:47-50
def GL_COMPRESSED_RGB_S3TC_DXT1_EXT : Nat := 0x83F0
def GL_COMPRESSED_RGBA_S3TC_DXT1_EXT : Nat := 0x83F1
def GL_COMPRESSED_RGBA_S3TC_DXT3_EXT : Nat := 0x83F2
def GL_COMPRESSED_RGBA_S3TC_DXT5_EXT : Nat := 0x83F3

-- Values of the OpenGL ES 2.0 system header (GLES2/gl2.h) used by the loaders.
def GL_TEXTURE_2D : Nat := 0x0DE1
def GL_TEXTURE_MAG_FILTER : Nat := 0x2800
def GL_TEXTURE_MIN_FILTER : Nat := 0x2801
def GL_LINEAR : Nat := 0x2601
def GL_LINEAR_MIPMAP_NEAREST : Nat := 0x2701
def GL_LUMINANCE : Nat := 0x1909
def GL_LUMINANCE_ALPHA : Nat := 0x190A
def GL_RGB : Nat := 0x1907
def GL_RGBA : Nat := 0x1908
def GL_UNSIGNED_BYTE : Nat := 0x1401

-- Value of the extension header (GLES2/gl2ext.h) used by `IsETCSupported`.
def GL_ETC1_RGB8_OES : Int := 0x8D64

/-! ## GL call trace -/

/-- Arguments of one `glCompressedTexImage2D` call. `data` is the byte offset of the
data pointer from `pData`. -/
structure CompressedTexImage2D where
  target : Nat
  level : Nat
  internalformat : Nat
  width : Nat
  height : Nat
  border : Nat
  imageSize : Nat
  data : Nat
deriving DecidableEq, Repr

/-- The GL calls issued by the loaders of texture.c. The first four are those of the two
container loaders; `glTexImage2D` (its `pixels` argument is the decoded image `pData`) and
`glGenerateMipmap` are issued by `LoadTexturePNG` only. -/
inductive GLCall where
  | glGenTextures (n : Nat) (texture : Nat)
  | glBindTexture (target : Nat) (texture : Nat)
  | glTexParameteri (target : Nat) (pname : Nat) (param : Nat)
  | glCompressedTexImage2D (args : CompressedTexImage2D)
  | glTexImage2D (target : Nat) (level : Nat) (internalformat : Nat) (width : Int)
      (height : Int) (border : Nat) (format : Nat) (type : Nat)
  | glGenerateMipmap (target : Nat)
deriving DecidableEq, Repr

/-- Outcome of a loader: the GL calls issued, whether `assert(0)` was reached, and the
`GLuint` returned (when assertions are compiled out). -/
structure LoadResult where
  calls : List GLCall
  assertFailed : Bool
  ret : Nat
deriving DecidableEq, Repr

/-- The level uploads among the calls of a loader, in issue order. -/
def LoadResult.uploads (r : LoadResult) : List CompressedTexImage2D :=
  r.calls.filterMap fun c =>
    match c with
    | .glCompressedTexImage2D a => some a
    | _ => none

/-! ## PVR v3 container (texture.c:267-386) -/

/-- The packed header of texture.c:267-281. -/
structure PVRHeaderV3 where
  mVersion : Nat
  mFlags : Nat
  mPixelFormat : Nat
  mColourSpace : Nat
  mChannelType : Nat
  mHeight : Nat
  mWidth : Nat
  mDepth : Nat
  mNumSurfaces : Nat
  mNumFaces : Nat
  mMipmapCount : Nat
  mMetaDataSize : Nat
deriving DecidableEq, Repr

/-- Field widths in bytes, in declaration order: `unsigned int` is 4 bytes,
`unsigned long long` is 8. -/
def PVRHeaderV3.fieldBytes : List Nat := [4, 4, 8, 4, 4, 4, 4, 4, 4, 4, 4, 4]

/-- Value of `sizeof(PVRHeaderV3)`: the struct is packed, so there is no padding. -/
def sizeof_PVRHeaderV3 : Nat := PVRHeaderV3.fieldBytes.sum

/-- Every field holds a value of its C type. -/
def PVRHeaderV3.WellFormed (h : PVRHeaderV3) : Prop :=
  h.mVersion < 4294967296 ∧ h.mFlags < 4294967296 ∧ h.mPixelFormat < 18446744073709551616 ∧
  h.mColourSpace < 4294967296 ∧ h.mChannelType < 4294967296 ∧ h.mHeight < 4294967296 ∧
  h.mWidth < 4294967296 ∧ h.mDepth < 4294967296 ∧ h.mNumSurfaces < 4294967296 ∧
  h.mNumFaces < 4294967296 ∧ h.mMipmapCount < 4294967296 ∧ h.mMetaDataSize < 4294967296

instance (h : PVRHeaderV3) : Decidable h.WellFormed := by
  unfold PVRHeaderV3.WellFormed; infer_instance

/-- The `switch( pHeader->mPixelFormat )` of texture.c:314-350: `some (format, bitsPerPixel)`
for the four cases, `none` for the `default` branch. -/
def pvrtcFormat (mPixelFormat : Nat) : Option (Nat × Nat) :=
  match mPixelFormat with
  | 0 => some (GL_COMPRESSED_RGB_PVRTC_2BPPV1_IMG, 2)
  | 1 => some (GL_COMPRESSED_RGBA_PVRTC_2BPPV1_IMG, 2)
  | 2 => some (GL_COMPRESSED_RGB_PVRTC_4BPPV1_IMG, 4)
  | 3 => some (GL_COMPRESSED_RGBA_PVRTC_4BPPV1_IMG, 4)
  | _ => none

/-- The do-while loop of texture.c:357-379. The counter `mip` is below `mMipmapCount`
(itself an `unsigned int`) whenever the body is re-entered, so `mip++` never wraps. -/
def pvrtcMipLoop (mMipmapCount format bitsPerPixel : Nat)
    (mip mipWidth mipHeight offset : Nat) : List CompressedTexImage2D :=
  let pixelDataSize := ((mipWidth * mipHeight * bitsPerPixel) % 4294967296) >>> 3
  let pixelDataSize := if pixelDataSize < 32 then 32 else pixelDataSize
  let upload : CompressedTexImage2D :=
    ⟨GL_TEXTURE_2D, mip, format, mipWidth, mipHeight, 0, pixelDataSize, offset⟩
  let mipWidth := mipWidth >>> 1
  let mipWidth := if mipWidth = 0 then 1 else mipWidth
  let mipHeight := mipHeight >>> 1
  let mipHeight := if mipHeight = 0 then 1 else mipHeight
  let offset := (offset + pixelDataSize) % 4294967296
  let mip := mip + 1
  if mip < mMipmapCount then
    upload :: pvrtcMipLoop mMipmapCount format bitsPerPixel mip mipWidth mipHeight offset
  else
    [upload]
termination_by mMipmapCount - mip

/-- Loader of texture.c:283-386. `fileSize` and the header are what `ReadFile` delivered,
`handle` is the name produced by `glGenTextures`. -/
def LoadTexturePVRTC (fileSize : Nat) (pHeader : PVRHeaderV3) (handle : Nat) : LoadResult :=
  let setup : List GLCall :=
    [.glGenTextures 1 handle,
     .glBindTexture GL_TEXTURE_2D handle,
     .glTexParameteri GL_TEXTURE_2D GL_TEXTURE_MAG_FILTER GL_LINEAR,
     .glTexParameteri GL_TEXTURE_2D GL_TEXTURE_MIN_FILTER GL_LINEAR] ++
    (if pHeader.mMipmapCount > 1 then
      [.glTexParameteri GL_TEXTURE_2D GL_TEXTURE_MIN_FILTER GL_LINEAR_MIPMAP_NEAREST]
     else [])
  match pvrtcFormat pHeader.mPixelFormat with
  | none => ⟨setup, true, 0⟩
  | some (format, bitsPerPixel) =>
    let offset := (sizeof_PVRHeaderV3 + pHeader.mMetaDataSize) % 4294967296
    let mipWidth := pHeader.mWidth
    let mipHeight := pHeader.mHeight
    let mip := 0
    ⟨setup ++ (pvrtcMipLoop pHeader.mMipmapCount format bitsPerPixel
        mip mipWidth mipHeight offset).map GLCall.glCompressedTexImage2D,
      false, handle⟩

/-! ## DDS container (texture.c:395-520) -/

/-- The pixel-format block of texture.c:395-405. -/
structure DDSPixelFormat where
  mSize : Nat
  mFlags : Nat
  mFourCC : Nat
  mRGBBitCount : Nat
  mRedBitMask : Nat
  mGreenBitMask : Nat
  mBlueBitMask : Nat
  mAlphaBitMask : Nat
deriving DecidableEq, Repr

/-- The header of texture.c:407-424. -/
structure DDSHeader where
  mFileType : List Nat
  mSize : Nat
  mFlags : Nat
  mHeight : Nat
  mWidth : Nat
  mPitchOrLinearSize : Nat
  mDepth : Nat
  mMipMapCount : Nat
  mReserved1 : List Nat
  mPixelFormat : DDSPixelFormat
  mCaps : Nat
  mCaps2 : Nat
  mCaps3 : Nat
  mCaps4 : Nat
  mReserved2 : Nat
deriving DecidableEq, Repr

/-- Value of `sizeof(DDSPixelFormat)`: eight `unsigned int`. -/
def sizeof_DDSPixelFormat : Nat := 8 * 4

/-- Value of `sizeof(DDSHeader)`: `char[4]`, seven `unsigned int`, `unsigned int[11]`,
the pixel-format block and five more `unsigned int`; all members are 4-byte aligned. -/
def sizeof_DDSHeader : Nat := 4 * 1 + 7 * 4 + 11 * 4 + sizeof_DDSPixelFormat + 5 * 4

/-- The two arrays have their declared lengths and the fields the loader reads hold
`unsigned int` values. -/
def DDSHeader.WellFormed (h : DDSHeader) : Prop :=
  h.mFileType.length = 4 ∧ h.mReserved1.length = 11 ∧
  h.mHeight < 4294967296 ∧ h.mWidth < 4294967296 ∧ h.mMipMapCount < 4294967296 ∧
  h.mPixelFormat.mFourCC < 4294967296

instance (h : DDSHeader) : Decidable h.WellFormed := by
  unfold DDSHeader.WellFormed; infer_instance

/-- The `switch( pHeader->mPixelFormat.mFourCC )` of texture.c:456-485:
`some (format, blockSize)` for the three cases, `none` for the `default` branch. -/
def s3tcFormat (mFourCC : Nat) : Option (Nat × Nat) :=
  if mFourCC = 0x31545844 then some (GL_COMPRESSED_RGBA_S3TC_DXT1_EXT, 8)
  else if mFourCC = 0x33545844 then some (GL_COMPRESSED_RGBA_S3TC_DXT3_EXT, 16)
  else if mFourCC = 0x35545844 then some (GL_COMPRESSED_RGBA_S3TC_DXT5_EXT, 16)
  else none

/-- The do-while loop of texture.c:492-513. The data pointer is
`(pData + sizeof(DDSHeader)) + offset`. -/
def s3tcMipLoop (mMipMapCount format blockSize : Nat)
    (mip mipWidth mipHeight offset : Nat) : List CompressedTexImage2D :=
  let pixelDataSize :=
    ((((mipWidth + 3) % 4294967296) >>> 2) * (((mipHeight + 3) % 4294967296) >>> 2) * blockSize)
      % 4294967296
  let upload : CompressedTexImage2D :=
    ⟨GL_TEXTURE_2D, mip, format, mipWidth, mipHeight, 0, pixelDataSize,
      sizeof_DDSHeader + offset⟩
  let mipWidth := mipWidth >>> 1
  let mipWidth := if mipWidth = 0 then 1 else mipWidth
  let mipHeight := mipHeight >>> 1
  let mipHeight := if mipHeight = 0 then 1 else mipHeight
  let offset := (offset + pixelDataSize) % 4294967296
  let mip := mip + 1
  if mip < mMipMapCount then
    upload :: s3tcMipLoop mMipMapCount format blockSize mip mipWidth mipHeight offset
  else
    [upload]
termination_by mMipMapCount - mip

/-- Loader of texture.c:426-520. -/
def LoadTextureS3TC (fileSize : Nat) (pHeader : DDSHeader) (handle : Nat) : LoadResult :=
  let setup : List GLCall :=
    [.glGenTextures 1 handle,
     .glBindTexture GL_TEXTURE_2D handle,
     .glTexParameteri GL_TEXTURE_2D GL_TEXTURE_MAG_FILTER GL_LINEAR,
     .glTexParameteri GL_TEXTURE_2D GL_TEXTURE_MIN_FILTER GL_LINEAR] ++
    (if pHeader.mMipMapCount > 1 then
      [.glTexParameteri GL_TEXTURE_2D GL_TEXTURE_MIN_FILTER GL_LINEAR_MIPMAP_NEAREST]
     else [])
  match s3tcFormat pHeader.mPixelFormat.mFourCC with
  | none => ⟨setup, true, 0⟩
  | some (format, blockSize) =>
    let offset := 0
    let mipWidth := pHeader.mWidth
    let mipHeight := pHeader.mHeight
    let mip := 0
    ⟨setup ++ (s3tcMipLoop pHeader.mMipMapCount format blockSize
        mip mipWidth mipHeight offset).map GLCall.glCompressedTexImage2D,
      false, handle⟩

/-! ## Closed form of the mip walk -/

/-- One halving step of a mip dimension: `d = d >> 1; d = (d == 0) ? 1 : d`. -/
def halveDim (d : Nat) : Nat := if d >>> 1 = 0 then 1 else d >>> 1

/-- Dimension of level `k` when level 0 has dimension `d`. -/
def dimAt (d : Nat) : Nat → Nat
  | 0 => d
  | k + 1 => halveDim (dimAt d k)

/-- The `pixelDataSize` computed at texture.c:362-363. -/
def pvrtcSize (bitsPerPixel mipWidth mipHeight : Nat) : Nat :=
  if ((mipWidth * mipHeight * bitsPerPixel) % 4294967296) >>> 3 < 32 then 32
  else ((mipWidth * mipHeight * bitsPerPixel) % 4294967296) >>> 3

/-- The `pixelDataSize` computed at texture.c:497. -/
def s3tcSize (blockSize mipWidth mipHeight : Nat) : Nat :=
  ((((mipWidth + 3) % 4294967296) >>> 2) * (((mipHeight + 3) % 4294967296) >>> 2) * blockSize)
    % 4294967296

/-- Value of the `unsigned int offset` variable on entry to iteration `k`, for a walk whose
iteration `j` uploads `size j` bytes. -/
def offsetAt (size : Nat → Nat) (offset : Nat) : Nat → Nat
  | 0 => offset
  | k + 1 => (offsetAt size offset k + size k) % 4294967296

/-- The upload issued by iteration `k` of a walk started at `(mip, w, h, offset)`. -/
def levelAt (size : Nat → Nat → Nat) (base format mip w h offset k : Nat) :
    CompressedTexImage2D :=
  ⟨GL_TEXTURE_2D, mip + k, format, dimAt w k, dimAt h k, 0, size (dimAt w k) (dimAt h k),
    base + offsetAt (fun j => size (dimAt w j) (dimAt h j)) offset k⟩

/-- Bits per pixel of a recognised PVR pixel-format code, as the specification words it:
2 for codes 0 and 1, 4 for codes 2 and 3. -/
def pvrtcBitsPerPixel (mPixelFormat : Nat) : Nat := if mPixelFormat ≤ 1 then 2 else 4

/-- Block size of a recognised FourCC, as the specification words it: 8 for DXT1,
16 for DXT3 and DXT5. -/
def s3tcBlockSize (mFourCC : Nat) : Nat := if mFourCC = 0x31545844 then 8 else 16

/-- The specification's `ceil(d/4)`: the least number of 4-pixel blocks that cover `d` pixels. -/
def ceilDiv4 (d : Nat) : Nat := if d % 4 = 0 then d / 4 else d / 4 + 1

/-- A PVR v3 header with the given pixel format, size, mip count and metadata size; the
remaining fields are those of a plain 2D texture. -/
def pvrHeader (mPixelFormat mWidth mHeight mMipmapCount mMetaDataSize : Nat) : PVRHeaderV3 :=
  ⟨0x03525650, 0, mPixelFormat, 0, 0, mHeight, mWidth, 1, 1, 1, mMipmapCount, mMetaDataSize⟩

/-- A DDS header with the given FourCC, size and mip count. -/
def ddsHeader (mFourCC mWidth mHeight mMipMapCount : Nat) : DDSHeader :=
  ⟨[0x44, 0x44, 0x53, 0x20], 124, 0x000A1007, mHeight, mWidth, 0, 0, mMipMapCount,
    List.replicate 11 0, ⟨32, 4, mFourCC, 0, 0, 0, 0, 0⟩, 0x00401008, 0, 0, 0, 0⟩

/-- Sum of the first `k` per-iteration sizes, in exact integers. -/
def cumSize (size : Nat → Nat) : Nat → Nat
  | 0 => 0
  | k + 1 => cumSize size k + size k

/-- The 32-bit value read from four consecutive bytes `a b c d` of a little-endian file. -/
def fourCC (a b c d : Char) : Nat :=
  a.toNat + 256 * b.toNat + 65536 * c.toNat + 16777216 * d.toNat

/-- A successful PVR decode with the given GL format and bits per pixel: no assertion
failure, the generated handle is returned, at least one level is uploaded, and every upload
uses `format` and the byte size that `bitsPerPixel` gives. -/
def pvrtcDecodesAs (r : LoadResult) (handle format bitsPerPixel : Nat) : Prop :=
  r.assertFailed = false ∧ r.ret = handle ∧ r.uploads ≠ [] ∧
    ∀ u ∈ r.uploads, u.internalformat = format ∧
      u.imageSize = max 32 ((u.width * u.height * bitsPerPixel) % 4294967296 / 8)

/-- A successful DDS decode with the given GL format and block size. -/
def s3tcDecodesAs (r : LoadResult) (handle format blockSize : Nat) : Prop :=
  r.assertFailed = false ∧ r.ret = handle ∧ r.uploads ≠ [] ∧
    ∀ u ∈ r.uploads, u.internalformat = format ∧
      u.imageSize = ((u.width + 3) % 4294967296 / 4) * ((u.height + 3) % 4294967296 / 4)
        * blockSize % 4294967296

/-- A failed decode: the `default` branch was taken (`assert(0); return 0;`) and no level
upload was issued. -/
def decodeFails (r : LoadResult) : Prop :=
  r.assertFailed = true ∧ r.ret = 0 ∧ r.uploads = [] ∧
    ∀ c ∈ r.calls, ∀ a, c ≠ GLCall.glCompressedTexImage2D a

/-! ## PNG loader (texture.c:140-213) -/

/-- The `glTexImage2D` calls among the calls of a loader, in issue order. -/
def LoadResult.texImages (r : LoadResult) : List GLCall :=
  r.calls.filter fun c =>
    match c with
    | .glTexImage2D _ _ _ _ _ _ _ _ => true
    | _ => false

/-- The `switch( numComponents )` of texture.c:165-197: `some format` for the four cases,
`none` for the `default` branch. -/
def pngFormat (numComponents : Int) : Option Nat :=
  if numComponents = 1 then some GL_LUMINANCE
  else if numComponents = 2 then some GL_LUMINANCE_ALPHA
  else if numComponents = 3 then some GL_RGB
  else if numComponents = 4 then some GL_RGBA
  else none

/-- Loader of texture.c:140-213. `width`, `height` and `numComponents` are the `int` values
written by `stbi_load_from_memory`, `handle` is the name produced by `glGenTextures`. -/
def LoadTexturePNG (width height numComponents : Int) (handle : Nat) : LoadResult :=
  let setup : List GLCall :=
    [.glGenTextures 1 handle,
     .glBindTexture GL_TEXTURE_2D handle,
     .glTexParameteri GL_TEXTURE_2D GL_TEXTURE_MAG_FILTER GL_LINEAR,
     .glTexParameteri GL_TEXTURE_2D GL_TEXTURE_MIN_FILTER GL_LINEAR_MIPMAP_NEAREST]
  match pngFormat numComponents with
  | none => ⟨setup, true, 0⟩
  | some format =>
    ⟨setup ++
      [.glTexImage2D GL_TEXTURE_2D 0 format width height 0 format GL_UNSIGNED_BYTE,
       .glGenerateMipmap GL_TEXTURE_2D],
      false, handle⟩

/-- A successful PNG decode with the given format: no assertion failure, the generated
handle is returned, and exactly one `glTexImage2D` call is issued, with `format` as both
internal format and format. -/
def pngDecodesAs (r : LoadResult) (width height : Int) (handle format : Nat) : Prop :=
  r.assertFailed = false ∧ r.ret = handle ∧
    r.texImages = [.glTexImage2D GL_TEXTURE_2D 0 format width height 0 format GL_UNSIGNED_BYTE]

/-- A failed PNG decode: the `default` branch was taken (`assert(0); return 0;`) and no
`glTexImage2D` call was issued. -/
def pngDecodeFails (r : LoadResult) : Prop :=
  r.assertFailed = true ∧ r.ret = 0 ∧ r.texImages = []

/-! ## Capability probes (texture.c:70-106) -/

/-- Outcome of `IsETCSupported`: the returned `int` and the final value of the global
`GLEW_OES_compressed_ETC1_RGB8_texture`. -/
structure ETCProbe where
  ret : Int
  GLEW_OES_compressed_ETC1_RGB8_texture : Int
deriving DecidableEq, Repr

/-- The `for` loop of texture.c:84-92 over the entries of `formats`, threading the global
flag: the `switch` sets it to 1 on `GL_ETC1_RGB8_OES` and leaves it alone otherwise. -/
def IsETCSupported_scan : List Int → Int → Int
  | [], flag => flag
  | f :: rest, flag => IsETCSupported_scan rest (if f = GL_ETC1_RGB8_OES then 1 else flag)

/-- Probe of texture.c:70-97. `formats` is the list the context reports for
`GL_COMPRESSED_TEXTURE_FORMATS`; `count` is its length, as reported for
`GL_NUM_COMPRESSED_TEXTURE_FORMATS`. -/
def IsETCSupported (formats : List Int) : ETCProbe :=
  let count : Int := formats.length
  let flag : Int := 0
  let flag := if count > 0 then IsETCSupported_scan formats flag else flag
  ⟨1, flag⟩

/-- Probe of texture.c:101-106. -/
def IsETC2Supported : Int := 1

/-! ## Texture block of `Init` (jni_main.c:278-285) -/

/-- The asset names passed to the loaders by `Init`. -/
inductive TextureFile where
  | tex_png
  | tex_bw
  | tex_etc1
  | tex_etc2
  | tex_pvr
  | tex_s3tc
deriving DecidableEq, Repr

/-- File name of an asset, as spelled in jni_main.c. -/
def TextureFile.name : TextureFile → String
  | .tex_png => "tex_png.png"
  | .tex_bw => "tex_bw.png"
  | .tex_etc1 => "tex_etc1.ktx"
  | .tex_etc2 => "tex_etc2.ktx"
  | .tex_pvr => "tex_pvr.pvr"
  | .tex_s3tc => "tex_s3tc.dds"

/-- A loader invocation made by `Init`. -/
inductive LoaderCall where
  | LoadTexturePNG (file : TextureFile)
  | LoadTextureETC_KTX (file : TextureFile)
  | LoadTexturePVRTC (file : TextureFile)
  | LoadTextureS3TC (file : TextureFile)
deriving DecidableEq, Repr

/-- What the functions called by the texture block of `Init` return: the `int` of each
probe and the `GLuint` each loader returns for an asset. -/
structure InitEnv where
  IsETCSupported : Int
  IsETC2Supported : Int
  IsPVRTCSupported : Int
  IsS3TCSupported : Int
  LoadTexturePNG : TextureFile → Nat
  LoadTextureETC_KTX : TextureFile → Nat
  LoadTexturePVRTC : TextureFile → Nat
  LoadTextureS3TC : TextureFile → Nat

/-- The six texture globals of jni_main.c:247-252. -/
structure TextureHandles where
  gTextureHandlePNG : Nat
  gTextureHandleUnsupported : Nat
  gTextureHandleETC : Nat
  gTextureHandleETC2 : Nat
  gTextureHandlePVRTC : Nat
  gTextureHandleS3TC : Nat
deriving DecidableEq, Repr

/-- Outcome of the texture block of `Init`: the globals and the loader invocations made, in
order. -/
structure InitResult where
  handles : TextureHandles
  loaderCalls : List LoaderCall
deriving DecidableEq, Repr

/-- The texture block of `Init`, jni_main.c:278-285. Each `( p ) ? f(..) : g` evaluates `f`
only when `p` is non-zero. -/
def Init (env : InitEnv) : InitResult :=
  let gTextureHandlePNG := env.LoadTexturePNG .tex_png
  let loaderCalls := [LoaderCall.LoadTexturePNG .tex_png]
  let gTextureHandleUnsupported := env.LoadTexturePNG .tex_bw
  let loaderCalls := loaderCalls ++ [LoaderCall.LoadTexturePNG .tex_bw]
  let gTextureHandleETC :=
    if env.IsETCSupported ≠ 0 then env.LoadTextureETC_KTX .tex_etc1
    else gTextureHandleUnsupported
  let loaderCalls := loaderCalls ++
    (if env.IsETCSupported ≠ 0 then [LoaderCall.LoadTextureETC_KTX .tex_etc1] else [])
  let gTextureHandleETC2 :=
    if env.IsETC2Supported ≠ 0 then env.LoadTextureETC_KTX .tex_etc2
    else gTextureHandleUnsupported
  let loaderCalls := loaderCalls ++
    (if env.IsETC2Supported ≠ 0 then [LoaderCall.LoadTextureETC_KTX .tex_etc2] else [])
  let gTextureHandlePVRTC :=
    if env.IsPVRTCSupported ≠ 0 then env.LoadTexturePVRTC .tex_pvr
    else gTextureHandleUnsupported
  let loaderCalls := loaderCalls ++
    (if env.IsPVRTCSupported ≠ 0 then [LoaderCall.LoadTexturePVRTC .tex_pvr] else [])
  let gTextureHandleS3TC :=
    if env.IsS3TCSupported ≠ 0 then env.LoadTextureS3TC .tex_s3tc
    else gTextureHandleUnsupported
  let loaderCalls := loaderCalls ++
    (if env.IsS3TCSupported ≠ 0 then [LoaderCall.LoadTextureS3TC .tex_s3tc] else [])
  ⟨⟨gTextureHandlePNG, gTextureHandleUnsupported, gTextureHandleETC, gTextureHandleETC2,
      gTextureHandlePVRTC, gTextureHandleS3TC⟩, loaderCalls⟩

/-- An environment in which the four probes return the given values and each loader returns
a fixed handle per asset. -/
def sampleEnv (etc etc2 pvrtc s3tc : Int) : InitEnv :=
  ⟨etc, etc2, pvrtc, s3tc, fun f => if f = .tex_png then 1 else 2,
    fun f => if f = .tex_etc1 then 3 else 4, fun _ => 5, fun _ => 6⟩

/-! ## Headers that differ in the mip count only -/

/-- The same PVR header with another mip count. -/
def PVRHeaderV3.withMipmapCount (h : PVRHeaderV3) (n : Nat) : PVRHeaderV3 :=
  { h with mMipmapCount := n }

/-- The same DDS header with another mip count. -/
def DDSHeader.withMipMapCount (h : DDSHeader) (n : Nat) : DDSHeader :=
  { h with mMipMapCount := n }

/-! ## Lemmas on the closed form -/

theorem dimAt_halveDim (d k : Nat) : dimAt (halveDim d) k = dimAt d (k + 1) := by
  induction k with
  | zero => rfl
  | succ k ih => simp only [dimAt] at ih ⊢; rw [ih]

theorem offsetAt_shift (size : Nat → Nat) (offset k : Nat) :
    offsetAt (fun j => size (j + 1)) ((offset + size 0) % 4294967296) k
      = offsetAt size offset (k + 1) := by
  induction k with
  | zero => rfl
  | succ k ih => simp only [offsetAt] at ih ⊢; rw [ih]

theorem levelAt_shift (size : Nat → Nat → Nat) (base format mip w h offset k : Nat) :
    levelAt size base format (mip + 1) (halveDim w) (halveDim h)
        ((offset + size w h) % 4294967296) k
      = levelAt size base format mip w h offset (k + 1) := by
  have hoff : offsetAt (fun j => size (dimAt w (j + 1)) (dimAt h (j + 1)))
      ((offset + size w h) % 4294967296) k
        = offsetAt (fun j => size (dimAt w j) (dimAt h j)) offset (k + 1) :=
    offsetAt_shift (fun j => size (dimAt w j) (dimAt h j)) offset k
  simp only [levelAt, dimAt_halveDim, hoff]
  congr 1
  omega

theorem range_map_levelAt_succ (size : Nat → Nat → Nat) (base format mip w h offset n : Nat) :
    (List.range (n + 1)).map (levelAt size base format mip w h offset)
      = levelAt size base format mip w h offset 0 ::
        (List.range n).map (levelAt size base format (mip + 1) (halveDim w) (halveDim h)
          ((offset + size w h) % 4294967296)) := by
  rw [List.range_succ_eq_map, List.map_cons, List.map_map]
  congr 1
  apply List.map_congr_left
  intro k _
  simp only [Function.comp, levelAt_shift]

theorem pvrtcMipLoop_eq (count format bpp : Nat) :
    ∀ n mip w h offset, count - mip = n →
      pvrtcMipLoop count format bpp mip w h offset
        = (List.range (max 1 n)).map (levelAt (pvrtcSize bpp) 0 format mip w h offset) := by
  intro n
  induction n with
  | zero =>
    intro mip w h offset hn
    rw [pvrtcMipLoop]
    have : ¬ mip + 1 < count := by omega
    simp [this, levelAt, dimAt, offsetAt, pvrtcSize, List.range_succ, List.range_zero]
  | succ m ih =>
    intro mip w h offset hn
    rw [pvrtcMipLoop]
    by_cases hlt : mip + 1 < count
    · have hm : max 1 (m + 1) = max 1 m + 1 := by omega
      rw [hm, range_map_levelAt_succ, ← ih (mip + 1) _ _ _ (by omega)]
      simp [hlt, levelAt, dimAt, offsetAt, pvrtcSize, halveDim]
    · have hm : m = 0 := by omega
      subst hm
      simp [hlt, levelAt, dimAt, offsetAt, pvrtcSize, List.range_succ, List.range_zero]

theorem s3tcMipLoop_eq (count format blockSize : Nat) :
    ∀ n mip w h offset, count - mip = n →
      s3tcMipLoop count format blockSize mip w h offset
        = (List.range (max 1 n)).map
            (levelAt (s3tcSize blockSize) sizeof_DDSHeader format mip w h offset) := by
  intro n
  induction n with
  | zero =>
    intro mip w h offset hn
    rw [s3tcMipLoop]
    have : ¬ mip + 1 < count := by omega
    simp [this, levelAt, dimAt, offsetAt, s3tcSize, List.range_succ, List.range_zero]
  | succ m ih =>
    intro mip w h offset hn
    rw [s3tcMipLoop]
    by_cases hlt : mip + 1 < count
    · have hm : max 1 (m + 1) = max 1 m + 1 := by omega
      rw [hm, range_map_levelAt_succ, ← ih (mip + 1) _ _ _ (by omega)]
      simp [hlt, levelAt, dimAt, offsetAt, s3tcSize, halveDim]
    · have hm : m = 0 := by omega
      subst hm
      simp [hlt, levelAt, dimAt, offsetAt, s3tcSize, List.range_succ, List.range_zero]

theorem filterMap_upload_map (l : List CompressedTexImage2D) :
    (l.map GLCall.glCompressedTexImage2D).filterMap
        (fun c => match c with
          | .glCompressedTexImage2D a => some a
          | _ => none) = l := by
  induction l with
  | nil => rfl
  | cons a t ih => simp only [List.map_cons, List.filterMap_cons, ih]

/-- The uploads of the PVR loader, in closed form. -/
theorem LoadTexturePVRTC_uploads (fileSize : Nat) (hdr : PVRHeaderV3) (handle format bpp : Nat)
    (hf : pvrtcFormat hdr.mPixelFormat = some (format, bpp)) :
    (LoadTexturePVRTC fileSize hdr handle).uploads
      = (List.range (max 1 hdr.mMipmapCount)).map
          (levelAt (pvrtcSize bpp) 0 format 0 hdr.mWidth hdr.mHeight
            ((sizeof_PVRHeaderV3 + hdr.mMetaDataSize) % 4294967296)) := by
  unfold LoadTexturePVRTC LoadResult.uploads
  simp only [hf, List.filterMap_append, filterMap_upload_map]
  rw [pvrtcMipLoop_eq hdr.mMipmapCount format bpp hdr.mMipmapCount 0 _ _ _ rfl]
  split <;> rfl

/-- The uploads of the DDS loader, in closed form. -/
theorem LoadTextureS3TC_uploads (fileSize : Nat) (hdr : DDSHeader) (handle format blockSize : Nat)
    (hf : s3tcFormat hdr.mPixelFormat.mFourCC = some (format, blockSize)) :
    (LoadTextureS3TC fileSize hdr handle).uploads
      = (List.range (max 1 hdr.mMipMapCount)).map
          (levelAt (s3tcSize blockSize) sizeof_DDSHeader format 0 hdr.mWidth hdr.mHeight 0) := by
  unfold LoadTextureS3TC LoadResult.uploads
  simp only [hf, List.filterMap_append, filterMap_upload_map]
  rw [s3tcMipLoop_eq hdr.mMipMapCount format blockSize hdr.mMipMapCount 0 _ _ _ rfl]
  split <;> rfl

theorem halveDim_eq (d : Nat) : halveDim d = max 1 (d >>> 1) := by
  unfold halveDim
  split <;> omega

theorem pvrtcSize_eq (bpp w h : Nat) :
    pvrtcSize bpp w h = max 32 ((w * h * bpp) % 4294967296 / 8) := by
  unfold pvrtcSize
  simp only [Nat.shiftRight_eq_div_pow]
  split <;> omega

theorem pvrtcFormat_of_lt (c : Nat) (hc : c < 4) :
    ∃ format, pvrtcFormat c = some (format, pvrtcBitsPerPixel c) := by
  interval_cases c <;> exact ⟨_, rfl⟩

theorem s3tcFormat_of_code (c : Nat) (hc : c = 0x31545844 ∨ c = 0x33545844 ∨ c = 0x35545844) :
    ∃ format, s3tcFormat c = some (format, s3tcBlockSize c) := by
  rcases hc with h | h | h <;> subst h <;> exact ⟨_, rfl⟩

theorem getElem?_range_map_levelAt (size : Nat → Nat → Nat)
    (base format mip w h offset n k : Nat) (hk : k < n) :
    ((List.range n).map (levelAt size base format mip w h offset))[k]?
      = some (levelAt size base format mip w h offset k) := by
  simp [List.getElem?_map, List.getElem?_range hk]

theorem mem_range_map_levelAt (size : Nat → Nat → Nat)
    (base format mip w h offset n : Nat) (u : CompressedTexImage2D)
    (hu : u ∈ (List.range n).map (levelAt size base format mip w h offset)) :
    ∃ k, k < n ∧ u = levelAt size base format mip w h offset k := by
  rcases List.mem_map.mp hu with ⟨k, hk, rfl⟩
  exact ⟨k, List.mem_range.mp hk, rfl⟩

/-! ## C1: PVR per-level byte size -/

/-- C1, refuted as stated: for the PVR header with pixel format 2 (4 bpp), 32768 x 32768 and
one mip level, the product `w*h*bpp` is 2^32 and wraps to 0, so the uploaded level has
byteSize 32 and not `max(32, floor(w*h*bpp/8)) = 2^29`. -/
theorem C1_counterexample :
    (pvrHeader 2 32768 32768 1 0).WellFormed ∧
      ∃ u ∈ (LoadTexturePVRTC 536870964 (pvrHeader 2 32768 32768 1 0) 1).uploads,
        u.imageSize = 32 ∧
        u.imageSize ≠ max 32 (u.width * u.height * pvrtcBitsPerPixel 2 / 8) :=
  ⟨by decide,
    ⟨GL_TEXTURE_2D, 0, GL_COMPRESSED_RGB_PVRTC_4BPPV1_IMG, 32768, 32768, 0, 32, 52⟩,
    by rw [LoadTexturePVRTC_uploads 536870964 (pvrHeader 2 32768 32768 1 0) 1
          GL_COMPRESSED_RGB_PVRTC_4BPPV1_IMG 4 rfl]
       decide,
    rfl, by decide⟩

/-- C1 (amended): for every PVR header with a recognised pixel-format code, every level
uploaded by `LoadTexturePVRTC` has byteSize `max(32, floor(((w*h*bpp) mod 2^32) / 8))`, which
is `max(32, floor(w*h*bpp/8))` whenever `w*h*bpp < 2^32`; `bpp` is 2 for codes 0 and 1 and 4
for codes 2 and 3. -/
theorem C1_pvrtc_level_byteSize (fileSize : Nat) (hdr : PVRHeaderV3) (handle : Nat)
    (hpf : hdr.mPixelFormat < 4) (u : CompressedTexImage2D)
    (hu : u ∈ (LoadTexturePVRTC fileSize hdr handle).uploads) :
    u.imageSize
        = max 32 ((u.width * u.height * pvrtcBitsPerPixel hdr.mPixelFormat) % 4294967296 / 8) ∧
      (u.width * u.height * pvrtcBitsPerPixel hdr.mPixelFormat < 4294967296 →
        u.imageSize = max 32 (u.width * u.height * pvrtcBitsPerPixel hdr.mPixelFormat / 8)) := by
  obtain ⟨format, hf⟩ := pvrtcFormat_of_lt _ hpf
  rw [LoadTexturePVRTC_uploads _ _ _ _ _ hf] at hu
  obtain ⟨k, -, rfl⟩ := mem_range_map_levelAt _ _ _ _ _ _ _ _ _ hu
  refine ⟨pvrtcSize_eq _ _ _, fun hlt => ?_⟩
  show pvrtcSize _ _ _ = _
  rw [pvrtcSize_eq]
  exact congrArg (fun x => max 32 (x / 8)) (Nat.mod_eq_of_lt hlt)

/-- C1 witness: level 1 of the 64 x 64, 4 bpp, three-level PVR asset is 32 x 32 and has
byteSize 512. -/
theorem C1_pvrtc_level_byteSize_witness :
    (pvrHeader 2 64 64 3 0).mPixelFormat < 4 ∧
      (⟨GL_TEXTURE_2D, 1, GL_COMPRESSED_RGB_PVRTC_4BPPV1_IMG, 32, 32, 0, 512, 2100⟩ :
          CompressedTexImage2D) ∈ (LoadTexturePVRTC 2740 (pvrHeader 2 64 64 3 0) 1).uploads ∧
      32 * 32 * pvrtcBitsPerPixel 2 < 4294967296 ∧
      (512 : Nat) = max 32 (32 * 32 * pvrtcBitsPerPixel 2 / 8) :=
  have hmem : (⟨GL_TEXTURE_2D, 1, GL_COMPRESSED_RGB_PVRTC_4BPPV1_IMG, 32, 32, 0, 512, 2100⟩ :
      CompressedTexImage2D) ∈ (LoadTexturePVRTC 2740 (pvrHeader 2 64 64 3 0) 1).uploads := by
    rw [LoadTexturePVRTC_uploads 2740 (pvrHeader 2 64 64 3 0) 1
      GL_COMPRESSED_RGB_PVRTC_4BPPV1_IMG 4 rfl]
    decide
  ⟨by decide, hmem, by decide,
    (C1_pvrtc_level_byteSize 2740 (pvrHeader 2 64 64 3 0) 1 (by decide) _ hmem).2 (by decide)⟩

/-! ## C2: DDS per-level byte size -/

theorem ceilDiv4_eq (d : Nat) : ceilDiv4 d = (d + 3) / 4 := by
  unfold ceilDiv4
  split <;> omega

theorem s3tcBlockSize_cases (c : Nat) : s3tcBlockSize c = 8 ∨ s3tcBlockSize c = 16 := by
  unfold s3tcBlockSize
  split <;> simp

theorem s3tcSize_eq_of_lt (bs w h : Nat) (hbs : 8 ≤ bs)
    (hlt : ceilDiv4 w * ceilDiv4 h * bs < 4294967296) :
    s3tcSize bs w h = ceilDiv4 w * ceilDiv4 h * bs := by
  unfold s3tcSize
  simp only [Nat.shiftRight_eq_div_pow, ceilDiv4_eq] at hlt ⊢
  rcases Nat.eq_zero_or_pos ((w + 3) / 4) with ha | ha
  · have hw : (w + 3) % 4294967296 / 4 = 0 := by omega
    simp [ha, hw]
  rcases Nat.eq_zero_or_pos ((h + 3) / 4) with hb | hb
  · have hh : (h + 3) % 4294967296 / 4 = 0 := by omega
    simp [hb, hh]
  have h1 : (w + 3) / 4 * 8 ≤ (w + 3) / 4 * ((h + 3) / 4) * bs := by
    calc (w + 3) / 4 * 8 = (w + 3) / 4 * 1 * 8 := by ring
      _ ≤ (w + 3) / 4 * ((h + 3) / 4) * bs :=
        Nat.mul_le_mul (Nat.mul_le_mul_left _ hb) hbs
  have h2 : (h + 3) / 4 * 8 ≤ (w + 3) / 4 * ((h + 3) / 4) * bs := by
    calc (h + 3) / 4 * 8 = 1 * ((h + 3) / 4) * 8 := by ring
      _ ≤ (w + 3) / 4 * ((h + 3) / 4) * bs :=
        Nat.mul_le_mul (Nat.mul_le_mul_right _ ha) hbs
  have hw : (w + 3) % 4294967296 = w + 3 := Nat.mod_eq_of_lt (by omega)
  have hh : (h + 3) % 4294967296 = h + 3 := Nat.mod_eq_of_lt (by omega)
  rw [hw, hh]
  exact Nat.mod_eq_of_lt hlt

/-- C2, refuted as stated: for the DXT1 header of 262144 x 262144 with one mip level,
`ceil(w/4)*ceil(h/4)*8` is 2^35 and wraps to 0 in `unsigned int`, so the level is uploaded with
byteSize 0. -/
theorem C2_counterexample :
    (ddsHeader 0x31545844 262144 262144 1).WellFormed ∧
      ∃ u ∈ (LoadTextureS3TC 128 (ddsHeader 0x31545844 262144 262144 1) 1).uploads,
        u.imageSize = 0 ∧
        u.imageSize ≠ ceilDiv4 u.width * ceilDiv4 u.height * s3tcBlockSize 0x31545844 :=
  ⟨by decide,
    ⟨GL_TEXTURE_2D, 0, GL_COMPRESSED_RGBA_S3TC_DXT1_EXT, 262144, 262144, 0, 0, 128⟩,
    by rw [LoadTextureS3TC_uploads 128 (ddsHeader 0x31545844 262144 262144 1) 1
          GL_COMPRESSED_RGBA_S3TC_DXT1_EXT 8 rfl]
       decide,
    rfl, by decide⟩

/-- C2 (amended): for every DDS header with FourCC DXT1, DXT3 or DXT5, every level uploaded
by `LoadTextureS3TC` has the byteSize of texture.c:497 computed modulo 2^32, which is
`ceil(w/4) * ceil(h/4) * blockSize` whenever that product is below 2^32; blockSize is 8 for
DXT1 and 16 for DXT3 and DXT5, and there is no minimum-size floor: a 1 x 1 DXT1 level is
8 bytes. -/
theorem C2_s3tc_level_byteSize (fileSize : Nat) (hdr : DDSHeader) (handle : Nat)
    (hcc : hdr.mPixelFormat.mFourCC = 0x31545844 ∨ hdr.mPixelFormat.mFourCC = 0x33545844 ∨
      hdr.mPixelFormat.mFourCC = 0x35545844)
    (u : CompressedTexImage2D) (hu : u ∈ (LoadTextureS3TC fileSize hdr handle).uploads) :
    u.imageSize
        = ((u.width + 3) % 4294967296 / 4) * ((u.height + 3) % 4294967296 / 4)
            * s3tcBlockSize hdr.mPixelFormat.mFourCC % 4294967296 ∧
      (ceilDiv4 u.width * ceilDiv4 u.height * s3tcBlockSize hdr.mPixelFormat.mFourCC
          < 4294967296 →
        u.imageSize
          = ceilDiv4 u.width * ceilDiv4 u.height * s3tcBlockSize hdr.mPixelFormat.mFourCC) ∧
      (hdr.mPixelFormat.mFourCC = 0x31545844 → u.width = 1 → u.height = 1 →
        u.imageSize = 8) := by
  obtain ⟨format, hf⟩ := s3tcFormat_of_code _ hcc
  rw [LoadTextureS3TC_uploads _ _ _ _ _ hf] at hu
  obtain ⟨k, -, rfl⟩ := mem_range_map_levelAt _ _ _ _ _ _ _ _ _ hu
  have hbs : 8 ≤ s3tcBlockSize hdr.mPixelFormat.mFourCC := by
    rcases s3tcBlockSize_cases hdr.mPixelFormat.mFourCC with h | h <;> omega
  refine ⟨?_, fun hlt => s3tcSize_eq_of_lt _ _ _ hbs hlt, fun h1 hw hh => ?_⟩
  · show s3tcSize _ _ _ = _
    unfold s3tcSize
    simp only [Nat.shiftRight_eq_div_pow]
    rfl
  · show s3tcSize _ _ _ = _
    have hw1 : dimAt hdr.mWidth k = 1 := hw
    have hh1 : dimAt hdr.mHeight k = 1 := hh
    rw [hw1, hh1, h1]
    decide

/-- C2 witness: the 10 x 10 DXT1 asset with one level uploads 72 bytes. -/
theorem C2_s3tc_level_byteSize_witness :
    ((ddsHeader 0x31545844 10 10 1).mPixelFormat.mFourCC = 0x31545844 ∨
        (ddsHeader 0x31545844 10 10 1).mPixelFormat.mFourCC = 0x33545844 ∨
        (ddsHeader 0x31545844 10 10 1).mPixelFormat.mFourCC = 0x35545844) ∧
      (⟨GL_TEXTURE_2D, 0, GL_COMPRESSED_RGBA_S3TC_DXT1_EXT, 10, 10, 0, 72, 128⟩ :
          CompressedTexImage2D) ∈ (LoadTextureS3TC 200 (ddsHeader 0x31545844 10 10 1) 1).uploads ∧
      ceilDiv4 10 * ceilDiv4 10 * s3tcBlockSize 0x31545844 < 4294967296 ∧
      (72 : Nat) = ceilDiv4 10 * ceilDiv4 10 * s3tcBlockSize 0x31545844 :=
  have hmem : (⟨GL_TEXTURE_2D, 0, GL_COMPRESSED_RGBA_S3TC_DXT1_EXT, 10, 10, 0, 72, 128⟩ :
      CompressedTexImage2D) ∈ (LoadTextureS3TC 200 (ddsHeader 0x31545844 10 10 1) 1).uploads := by
    rw [LoadTextureS3TC_uploads 200 (ddsHeader 0x31545844 10 10 1) 1
      GL_COMPRESSED_RGBA_S3TC_DXT1_EXT 8 rfl]
    decide
  ⟨Or.inl rfl, hmem, by decide,
    (C2_s3tc_level_byteSize 200 (ddsHeader 0x31545844 10 10 1) 1 (Or.inl rfl) _ hmem).2.1
      (by decide)⟩

/-! ## C3: number and order of level uploads -/

theorem map_level_range_map_levelAt (size : Nat → Nat → Nat) (base format w h offset n : Nat) :
    ((List.range n).map (levelAt size base format 0 w h offset)).map (fun u => u.level)
      = List.range n := by
  rw [List.map_map]
  have hid : ((fun u => u.level) ∘ levelAt size base format 0 w h offset) = id := by
    funext k
    simp [levelAt]
  rw [hid, List.map_id]

/-- C3, refuted as stated: with mip count 0 the do-while body still runs once, so both
loaders issue one upload, not zero. -/
theorem C3_counterexample :
    (pvrHeader 0 8 8 0 0).WellFormed ∧ (ddsHeader 0x31545844 4 4 0).WellFormed ∧
      (pvrHeader 0 8 8 0 0).mMipmapCount = 0 ∧
      (LoadTexturePVRTC 84 (pvrHeader 0 8 8 0 0) 1).uploads.length = 1 ∧
      (ddsHeader 0x31545844 4 4 0).mMipMapCount = 0 ∧
      (LoadTextureS3TC 136 (ddsHeader 0x31545844 4 4 0) 1).uploads.length = 1 := by
  refine ⟨by decide, by decide, rfl, ?_, rfl, ?_⟩
  · rw [LoadTexturePVRTC_uploads 84 (pvrHeader 0 8 8 0 0) 1
      GL_COMPRESSED_RGB_PVRTC_2BPPV1_IMG 2 rfl]
    decide
  · rw [LoadTextureS3TC_uploads 136 (ddsHeader 0x31545844 4 4 0) 1
      GL_COMPRESSED_RGBA_S3TC_DXT1_EXT 8 rfl]
    decide

/-- C3 (amended): for every PVR header with a recognised pixel format and mipCount = N,
`LoadTexturePVRTC` issues exactly max(1, N) level uploads, with mip indices
0, 1, ..., max(1, N) - 1 in that order; likewise `LoadTextureS3TC` for every DDS header with
FourCC DXT1, DXT3 or DXT5 and mipMapCount = N. For N >= 1 that is exactly N uploads. -/
theorem C3_upload_count_and_order (pvrFileSize ddsFileSize : Nat) (pvr : PVRHeaderV3) (dds : DDSHeader)
    (handle : Nat) (hp : pvr.mPixelFormat < 4)
    (hd : dds.mPixelFormat.mFourCC = 0x31545844 ∨ dds.mPixelFormat.mFourCC = 0x33545844 ∨
      dds.mPixelFormat.mFourCC = 0x35545844) :
    ((LoadTexturePVRTC pvrFileSize pvr handle).uploads.length = max 1 pvr.mMipmapCount ∧
      (LoadTexturePVRTC pvrFileSize pvr handle).uploads.map (fun u => u.level)
        = List.range (max 1 pvr.mMipmapCount)) ∧
    ((LoadTextureS3TC ddsFileSize dds handle).uploads.length = max 1 dds.mMipMapCount ∧
      (LoadTextureS3TC ddsFileSize dds handle).uploads.map (fun u => u.level)
        = List.range (max 1 dds.mMipMapCount)) := by
  obtain ⟨pf, hpf⟩ := pvrtcFormat_of_lt _ hp
  obtain ⟨df, hdf⟩ := s3tcFormat_of_code _ hd
  rw [LoadTexturePVRTC_uploads _ _ _ _ _ hpf, LoadTextureS3TC_uploads _ _ _ _ _ hdf]
  simp only [List.length_map, List.length_range, map_level_range_map_levelAt, and_self]

/-- C3 witness: three-level PVR and DDS assets give three uploads, levels 0, 1, 2. -/
theorem C3_upload_count_and_order_witness :
    (pvrHeader 2 64 64 3 0).mPixelFormat < 4 ∧
      ((ddsHeader 0x35545844 16 16 3).mPixelFormat.mFourCC = 0x31545844 ∨
        (ddsHeader 0x35545844 16 16 3).mPixelFormat.mFourCC = 0x33545844 ∨
        (ddsHeader 0x35545844 16 16 3).mPixelFormat.mFourCC = 0x35545844) ∧
      ((LoadTexturePVRTC 2740 (pvrHeader 2 64 64 3 0) 1).uploads.length = 3 ∧
        (LoadTexturePVRTC 2740 (pvrHeader 2 64 64 3 0) 1).uploads.map (fun u => u.level)
          = [0, 1, 2]) ∧
      ((LoadTextureS3TC 464 (ddsHeader 0x35545844 16 16 3) 1).uploads.length = 3 ∧
        (LoadTextureS3TC 464 (ddsHeader 0x35545844 16 16 3) 1).uploads.map (fun u => u.level)
          = [0, 1, 2]) :=
  ⟨by decide, Or.inr (Or.inr rfl),
    C3_upload_count_and_order 2740 464 (pvrHeader 2 64 64 3 0) (ddsHeader 0x35545844 16 16 3) 1
      (by decide) (Or.inr (Or.inr rfl))⟩

/-! ## C4: level dimensions -/

/-- C4: in both loaders level 0 is uploaded with the header's (width, height), and for every
k with k + 1 < N level k + 1 has dimensions (max(1, w_k >> 1), max(1, h_k >> 1)), each
dimension halved on its own. -/
theorem C4_level_dimensions (pvrFileSize ddsFileSize : Nat) (pvr : PVRHeaderV3) (dds : DDSHeader)
    (handle : Nat) (hp : pvr.mPixelFormat < 4)
    (hd : dds.mPixelFormat.mFourCC = 0x31545844 ∨ dds.mPixelFormat.mFourCC = 0x33545844 ∨
      dds.mPixelFormat.mFourCC = 0x35545844) :
    ((∃ u0, (LoadTexturePVRTC pvrFileSize pvr handle).uploads[0]? = some u0 ∧
        u0.width = pvr.mWidth ∧ u0.height = pvr.mHeight) ∧
      ∀ k, k + 1 < pvr.mMipmapCount →
        ∃ a b, (LoadTexturePVRTC pvrFileSize pvr handle).uploads[k]? = some a ∧
          (LoadTexturePVRTC pvrFileSize pvr handle).uploads[k + 1]? = some b ∧
          b.width = max 1 (a.width >>> 1) ∧ b.height = max 1 (a.height >>> 1)) ∧
    ((∃ u0, (LoadTextureS3TC ddsFileSize dds handle).uploads[0]? = some u0 ∧
        u0.width = dds.mWidth ∧ u0.height = dds.mHeight) ∧
      ∀ k, k + 1 < dds.mMipMapCount →
        ∃ a b, (LoadTextureS3TC ddsFileSize dds handle).uploads[k]? = some a ∧
          (LoadTextureS3TC ddsFileSize dds handle).uploads[k + 1]? = some b ∧
          b.width = max 1 (a.width >>> 1) ∧ b.height = max 1 (a.height >>> 1)) := by
  obtain ⟨pf, hpf⟩ := pvrtcFormat_of_lt _ hp
  obtain ⟨df, hdf⟩ := s3tcFormat_of_code _ hd
  rw [LoadTexturePVRTC_uploads _ _ _ _ _ hpf, LoadTextureS3TC_uploads _ _ _ _ _ hdf]
  refine ⟨⟨⟨_, getElem?_range_map_levelAt _ _ _ _ _ _ _ _ 0 (by omega), rfl, rfl⟩, ?_⟩,
    ⟨⟨_, getElem?_range_map_levelAt _ _ _ _ _ _ _ _ 0 (by omega), rfl, rfl⟩, ?_⟩⟩
  · intro k hk
    exact ⟨_, _, getElem?_range_map_levelAt _ _ _ _ _ _ _ _ k (by omega),
      getElem?_range_map_levelAt _ _ _ _ _ _ _ _ (k + 1) (by omega),
      halveDim_eq _, halveDim_eq _⟩
  · intro k hk
    exact ⟨_, _, getElem?_range_map_levelAt _ _ _ _ _ _ _ _ k (by omega),
      getElem?_range_map_levelAt _ _ _ _ _ _ _ _ (k + 1) (by omega),
      halveDim_eq _, halveDim_eq _⟩

/-- C4 witness: a 64 x 4 PVR asset and a 5 x 1 DDS asset, three levels each. -/
theorem C4_level_dimensions_witness :
    (pvrHeader 1 64 4 3 0).mPixelFormat < 4 ∧
      ((ddsHeader 0x33545844 5 1 3).mPixelFormat.mFourCC = 0x31545844 ∨
        (ddsHeader 0x33545844 5 1 3).mPixelFormat.mFourCC = 0x33545844 ∨
        (ddsHeader 0x33545844 5 1 3).mPixelFormat.mFourCC = 0x35545844) ∧
      (LoadTexturePVRTC 180 (pvrHeader 1 64 4 3 0) 1).uploads.map (fun u => (u.width, u.height))
        = [(64, 4), (32, 2), (16, 1)] ∧
      (LoadTextureS3TC 192 (ddsHeader 0x33545844 5 1 3) 1).uploads.map
          (fun u => (u.width, u.height))
        = [(5, 1), (2, 1), (1, 1)] ∧
      (((∃ u0, (LoadTexturePVRTC 180 (pvrHeader 1 64 4 3 0) 1).uploads[0]? = some u0 ∧
          u0.width = (pvrHeader 1 64 4 3 0).mWidth ∧
          u0.height = (pvrHeader 1 64 4 3 0).mHeight) ∧
        ∀ k, k + 1 < (pvrHeader 1 64 4 3 0).mMipmapCount →
          ∃ a b, (LoadTexturePVRTC 180 (pvrHeader 1 64 4 3 0) 1).uploads[k]? = some a ∧
            (LoadTexturePVRTC 180 (pvrHeader 1 64 4 3 0) 1).uploads[k + 1]? = some b ∧
            b.width = max 1 (a.width >>> 1) ∧ b.height = max 1 (a.height >>> 1)) ∧
      ((∃ u0, (LoadTextureS3TC 192 (ddsHeader 0x33545844 5 1 3) 1).uploads[0]? = some u0 ∧
          u0.width = (ddsHeader 0x33545844 5 1 3).mWidth ∧
          u0.height = (ddsHeader 0x33545844 5 1 3).mHeight) ∧
        ∀ k, k + 1 < (ddsHeader 0x33545844 5 1 3).mMipMapCount →
          ∃ a b, (LoadTextureS3TC 192 (ddsHeader 0x33545844 5 1 3) 1).uploads[k]? = some a ∧
            (LoadTextureS3TC 192 (ddsHeader 0x33545844 5 1 3) 1).uploads[k + 1]? = some b ∧
            b.width = max 1 (a.width >>> 1) ∧ b.height = max 1 (a.height >>> 1))) :=
  ⟨by decide, Or.inr (Or.inl rfl),
    by rw [LoadTexturePVRTC_uploads 180 (pvrHeader 1 64 4 3 0) 1
          GL_COMPRESSED_RGBA_PVRTC_2BPPV1_IMG 2 rfl]
       decide,
    by rw [LoadTextureS3TC_uploads 192 (ddsHeader 0x33545844 5 1 3) 1
          GL_COMPRESSED_RGBA_S3TC_DXT3_EXT 16 rfl]
       decide,
    C4_level_dimensions 180 192 (pvrHeader 1 64 4 3 0) (ddsHeader 0x33545844 5 1 3) 1
      (by decide) (Or.inr (Or.inl rfl))⟩

/-! ## C5: offsets of consecutive levels -/

theorem levelAt_data_succ (size : Nat → Nat → Nat) (base format mip w h offset k : Nat) :
    (levelAt size base format mip w h offset (k + 1)).data
      = base + ((levelAt size base format mip w h offset k).data - base
          + (levelAt size base format mip w h offset k).imageSize) % 4294967296 := by
  simp only [levelAt, offsetAt, Nat.add_sub_cancel_left]

/-- C5, refuted as stated: for the PVR header with metaDataSize = 2^32 - 84 and two 8 x 8
levels at 2 bpp, level 0 is read at offset 2^32 - 32 with byteSize 32 and the `unsigned int`
offset wraps, so level 1 is read at offset 0, not at 2^32. For the DXT3 header of
65532 x 65532 with three levels, level 1 is read at 128 + 4294443024 with byteSize 2^30 and
level 2 at 128 + 1073217552. -/
theorem C5_counterexample :
    ((pvrHeader 0 8 8 2 4294967212).WellFormed ∧
      ∃ a b, (LoadTexturePVRTC 116 (pvrHeader 0 8 8 2 4294967212) 1).uploads[0]? = some a ∧
        (LoadTexturePVRTC 116 (pvrHeader 0 8 8 2 4294967212) 1).uploads[1]? = some b ∧
        a.data = 4294967264 ∧ a.imageSize = 32 ∧ b.data = 0 ∧
        b.data ≠ a.data + a.imageSize) ∧
    ((ddsHeader 0x33545844 65532 65532 3).WellFormed ∧
      ∃ a b, (LoadTextureS3TC 128 (ddsHeader 0x33545844 65532 65532 3) 1).uploads[1]? = some a ∧
        (LoadTextureS3TC 128 (ddsHeader 0x33545844 65532 65532 3) 1).uploads[2]? = some b ∧
        a.data = 4294443152 ∧ a.imageSize = 1073741824 ∧ b.data = 1073217680 ∧
        b.data ≠ a.data + a.imageSize) := by
  rw [LoadTexturePVRTC_uploads 116 (pvrHeader 0 8 8 2 4294967212) 1
    GL_COMPRESSED_RGB_PVRTC_2BPPV1_IMG 2 rfl,
    LoadTextureS3TC_uploads 128 (ddsHeader 0x33545844 65532 65532 3) 1
      GL_COMPRESSED_RGBA_S3TC_DXT3_EXT 16 rfl]
  exact ⟨⟨by decide,
      ⟨GL_TEXTURE_2D, 0, GL_COMPRESSED_RGB_PVRTC_2BPPV1_IMG, 8, 8, 0, 32, 4294967264⟩,
      ⟨GL_TEXTURE_2D, 1, GL_COMPRESSED_RGB_PVRTC_2BPPV1_IMG, 4, 4, 0, 32, 0⟩,
      by decide, by decide, rfl, rfl, rfl, by decide⟩,
    ⟨by decide,
      ⟨GL_TEXTURE_2D, 1, GL_COMPRESSED_RGBA_S3TC_DXT3_EXT, 32766, 32766, 0, 1073741824,
        4294443152⟩,
      ⟨GL_TEXTURE_2D, 2, GL_COMPRESSED_RGBA_S3TC_DXT3_EXT, 16383, 16383, 0, 268435456,
        1073217680⟩,
      by decide, by decide, rfl, rfl, rfl, by decide⟩⟩

/-- C5 (amended): the packed PVR header is 52 bytes and the DDS header 128 bytes. In
`LoadTexturePVRTC` level 0 is read at offset (52 + metaDataSize) mod 2^32 and level k + 1 at
(offset_k + byteSize_k) mod 2^32, for every k with k + 1 < N; in `LoadTextureS3TC` level 0 is
read at offset 128 and level k + 1 at 128 + ((offset_k - 128) + byteSize_k) mod 2^32. Whenever
the sum stays below 2^32 the offset of level k + 1 is the offset of level k plus the byteSize
of level k, and level 0 of a PVR asset starts at 52 + metaDataSize. -/
theorem C5_level_offsets (pvrFileSize ddsFileSize : Nat) (pvr : PVRHeaderV3) (dds : DDSHeader)
    (handle : Nat) (hp : pvr.mPixelFormat < 4)
    (hd : dds.mPixelFormat.mFourCC = 0x31545844 ∨ dds.mPixelFormat.mFourCC = 0x33545844 ∨
      dds.mPixelFormat.mFourCC = 0x35545844) :
    (sizeof_PVRHeaderV3 = 52 ∧ sizeof_DDSHeader = 128) ∧
    ((∃ u0, (LoadTexturePVRTC pvrFileSize pvr handle).uploads[0]? = some u0 ∧
        u0.data = (52 + pvr.mMetaDataSize) % 4294967296 ∧
        (52 + pvr.mMetaDataSize < 4294967296 → u0.data = 52 + pvr.mMetaDataSize)) ∧
      ∀ k, k + 1 < pvr.mMipmapCount →
        ∃ a b, (LoadTexturePVRTC pvrFileSize pvr handle).uploads[k]? = some a ∧
          (LoadTexturePVRTC pvrFileSize pvr handle).uploads[k + 1]? = some b ∧
          b.data = (a.data + a.imageSize) % 4294967296 ∧
          (a.data + a.imageSize < 4294967296 → b.data = a.data + a.imageSize)) ∧
    ((∃ u0, (LoadTextureS3TC ddsFileSize dds handle).uploads[0]? = some u0 ∧ u0.data = 128) ∧
      ∀ k, k + 1 < dds.mMipMapCount →
        ∃ a b, (LoadTextureS3TC ddsFileSize dds handle).uploads[k]? = some a ∧
          (LoadTextureS3TC ddsFileSize dds handle).uploads[k + 1]? = some b ∧
          b.data = 128 + (a.data - 128 + a.imageSize) % 4294967296 ∧
          (a.data - 128 + a.imageSize < 4294967296 → b.data = a.data + a.imageSize)) := by
  obtain ⟨pf, hpf⟩ := pvrtcFormat_of_lt _ hp
  obtain ⟨df, hdf⟩ := s3tcFormat_of_code _ hd
  rw [LoadTexturePVRTC_uploads _ _ _ _ _ hpf, LoadTextureS3TC_uploads _ _ _ _ _ hdf]
  have h52 : sizeof_PVRHeaderV3 = 52 := by decide
  have h128 : sizeof_DDSHeader = 128 := by decide
  refine ⟨⟨h52, h128⟩, ⟨⟨_, getElem?_range_map_levelAt _ _ _ _ _ _ _ _ 0 (by omega), ?_, ?_⟩, ?_⟩,
    ⟨⟨_, getElem?_range_map_levelAt _ _ _ _ _ _ _ _ 0 (by omega), ?_⟩, ?_⟩⟩
  · simp only [levelAt, offsetAt, h52, Nat.zero_add]
  · intro hlt
    simp only [levelAt, offsetAt, h52, Nat.zero_add]
    exact Nat.mod_eq_of_lt hlt
  · intro k hk
    refine ⟨_, _, getElem?_range_map_levelAt _ _ _ _ _ _ _ _ k (by omega),
      getElem?_range_map_levelAt _ _ _ _ _ _ _ _ (k + 1) (by omega), ?_, ?_⟩
    · rw [levelAt_data_succ]; simp only [Nat.zero_add, Nat.sub_zero]
    · intro hlt
      rw [levelAt_data_succ]; simp only [Nat.zero_add, Nat.sub_zero]
      exact Nat.mod_eq_of_lt hlt
  · simp only [levelAt, offsetAt, h128]
  · intro k hk
    refine ⟨_, _, getElem?_range_map_levelAt _ _ _ _ _ _ _ _ k (by omega),
      getElem?_range_map_levelAt _ _ _ _ _ _ _ _ (k + 1) (by omega), ?_, ?_⟩
    · rw [levelAt_data_succ, h128]
    · intro hlt
      rw [levelAt_data_succ]
      rw [h128] at hlt ⊢
      rw [Nat.mod_eq_of_lt hlt]
      simp only [levelAt]
      omega

/-- C5 witness: in the three-level 64 x 64 PVR asset level 1 starts at 52 + 2048, and in the
three-level 16 x 16 DXT5 asset level 1 starts at 128 + 256. -/
theorem C5_level_offsets_witness :
    (pvrHeader 2 64 64 3 0).mPixelFormat < 4 ∧
      ((ddsHeader 0x35545844 16 16 3).mPixelFormat.mFourCC = 0x31545844 ∨
        (ddsHeader 0x35545844 16 16 3).mPixelFormat.mFourCC = 0x33545844 ∨
        (ddsHeader 0x35545844 16 16 3).mPixelFormat.mFourCC = 0x35545844) ∧
      (LoadTexturePVRTC 2740 (pvrHeader 2 64 64 3 0) 1).uploads.map (fun u => u.data)
        = [52, 2100, 2612] ∧
      (LoadTextureS3TC 464 (ddsHeader 0x35545844 16 16 3) 1).uploads.map (fun u => u.data)
        = [128, 384, 448] ∧
      (∃ a b, (LoadTexturePVRTC 2740 (pvrHeader 2 64 64 3 0) 1).uploads[0]? = some a ∧
        (LoadTexturePVRTC 2740 (pvrHeader 2 64 64 3 0) 1).uploads[0 + 1]? = some b ∧
        b.data = (a.data + a.imageSize) % 4294967296 ∧
        (a.data + a.imageSize < 4294967296 → b.data = a.data + a.imageSize)) ∧
      (∃ a b, (LoadTextureS3TC 464 (ddsHeader 0x35545844 16 16 3) 1).uploads[0]? = some a ∧
        (LoadTextureS3TC 464 (ddsHeader 0x35545844 16 16 3) 1).uploads[0 + 1]? = some b ∧
        b.data = 128 + (a.data - 128 + a.imageSize) % 4294967296 ∧
        (a.data - 128 + a.imageSize < 4294967296 → b.data = a.data + a.imageSize)) :=
  ⟨by decide, Or.inr (Or.inr rfl),
    by rw [LoadTexturePVRTC_uploads 2740 (pvrHeader 2 64 64 3 0) 1
          GL_COMPRESSED_RGB_PVRTC_4BPPV1_IMG 4 rfl]
       decide,
    by rw [LoadTextureS3TC_uploads 464 (ddsHeader 0x35545844 16 16 3) 1
          GL_COMPRESSED_RGBA_S3TC_DXT5_EXT 16 rfl]
       decide,
    (C5_level_offsets 2740 464 (pvrHeader 2 64 64 3 0) (ddsHeader 0x35545844 16 16 3) 1
      (by decide) (Or.inr (Or.inr rfl))).2.1.2 0 (by decide),
    (C5_level_offsets 2740 464 (pvrHeader 2 64 64 3 0) (ddsHeader 0x35545844 16 16 3) 1
      (by decide) (Or.inr (Or.inr rfl))).2.2.2 0 (by decide)⟩

/-! ## C6: level ranges and the asset length -/

theorem cumSize_le (size : Nat → Nat) {k n : Nat} (hkn : k ≤ n) :
    cumSize size k ≤ cumSize size n := by
  induction n with
  | zero =>
    have hk : k = 0 := by omega
    subst hk
    exact Nat.le_refl _
  | succ n ih =>
    rcases Nat.eq_or_lt_of_le hkn with h | h
    · subst h
      exact Nat.le_refl _
    · have := ih (by omega)
      simp only [cumSize]
      omega

theorem sum_range_map_eq_cumSize (size : Nat → Nat) (n : Nat) :
    ((List.range n).map size).sum = cumSize size n := by
  induction n with
  | zero => rfl
  | succ n ih =>
    rw [List.range_succ, List.map_append, List.sum_append, ih]
    simp [cumSize]

theorem offsetAt_eq_of_lt (size : Nat → Nat) (offset k : Nat)
    (hlt : offset + cumSize size k < 4294967296) :
    offsetAt size offset k = offset + cumSize size k := by
  induction k with
  | zero => rfl
  | succ k ih =>
    simp only [cumSize] at hlt
    have hk : offset + cumSize size k < 4294967296 := by omega
    simp only [offsetAt, cumSize]
    have hk1 : offset + cumSize size k + size k < 4294967296 := by omega
    rw [ih hk, Nat.mod_eq_of_lt hk1]
    omega

theorem map_imageSize_range_map_levelAt (size : Nat → Nat → Nat)
    (base format mip w h offset n : Nat) :
    ((List.range n).map (levelAt size base format mip w h offset)).map (fun u => u.imageSize)
      = (List.range n).map (fun j => size (dimAt w j) (dimAt h j)) := by
  rw [List.map_map]
  rfl

theorem levelAt_end_le (size : Nat → Nat → Nat) (base format mip w h offset n fileSize : Nat)
    (hfs : fileSize < 4294967296)
    (hsum : base + offset +
      (((List.range n).map (levelAt size base format mip w h offset)).map
        (fun u => u.imageSize)).sum ≤ fileSize)
    (u : CompressedTexImage2D)
    (hu : u ∈ (List.range n).map (levelAt size base format mip w h offset)) :
    u.data + u.imageSize ≤ fileSize := by
  obtain ⟨k, hk, rfl⟩ := mem_range_map_levelAt _ _ _ _ _ _ _ _ _ hu
  rw [map_imageSize_range_map_levelAt, sum_range_map_eq_cumSize] at hsum
  have h1 := cumSize_le (fun j => size (dimAt w j) (dimAt h j)) (Nat.succ_le_of_lt hk)
  have h2 := cumSize_le (fun j => size (dimAt w j) (dimAt h j)) (Nat.le_succ k)
  have h3 : offsetAt (fun j => size (dimAt w j) (dimAt h j)) offset k
      = offset + cumSize (fun j => size (dimAt w j) (dimAt h j)) k :=
    offsetAt_eq_of_lt _ _ _ (by omega)
  simp only [cumSize] at h1 h2
  simp only [levelAt, h3]
  omega

/-- C6, refuted as stated: the loaders never look at `fileSize`. For a one-level 64 x 64,
4 bpp PVR asset of 52 bytes (the bare header) the single upload covers bytes 52 .. 2100, and for
a one-level 10 x 10 DXT1 asset of 128 bytes the single upload covers bytes 128 .. 200. -/
theorem C6_counterexample :
    ((pvrHeader 2 64 64 1 0).WellFormed ∧ (ddsHeader 0x31545844 10 10 1).WellFormed) ∧
    (∃ u, (LoadTexturePVRTC 52 (pvrHeader 2 64 64 1 0) 1).uploads.getLast? = some u ∧
        ¬ (u.data + u.imageSize ≤ 52)) ∧
      (∃ u, (LoadTextureS3TC 128 (ddsHeader 0x31545844 10 10 1) 1).uploads.getLast? = some u ∧
        ¬ (u.data + u.imageSize ≤ 128)) := by
  rw [LoadTexturePVRTC_uploads 52 (pvrHeader 2 64 64 1 0) 1
    GL_COMPRESSED_RGB_PVRTC_4BPPV1_IMG 4 rfl,
    LoadTextureS3TC_uploads 128 (ddsHeader 0x31545844 10 10 1) 1
      GL_COMPRESSED_RGBA_S3TC_DXT1_EXT 8 rfl]
  exact ⟨⟨by decide, by decide⟩,
    ⟨⟨GL_TEXTURE_2D, 0, GL_COMPRESSED_RGB_PVRTC_4BPPV1_IMG, 64, 64, 0, 2048, 52⟩,
      by decide, by decide⟩,
    ⟨⟨GL_TEXTURE_2D, 0, GL_COMPRESSED_RGBA_S3TC_DXT1_EXT, 10, 10, 0, 72, 128⟩,
      by decide, by decide⟩⟩

/-- C6 (amended): the uploads issued by `LoadTexturePVRTC` / `LoadTextureS3TC` do not depend
on `fileSize`. For every asset whose `unsigned int` length is at least the total its header
describes (52 + metaDataSize + the byteSizes of all levels for PVR, 128 + the byteSizes of all
levels for DDS), the end offset of every uploaded level, in particular of the last one, does
not exceed `fileSize`. -/
theorem C6_levels_within_asset (pvrFileSize ddsFileSize : Nat) (pvr : PVRHeaderV3)
    (dds : DDSHeader) (handle : Nat) (hp : pvr.mPixelFormat < 4)
    (hd : dds.mPixelFormat.mFourCC = 0x31545844 ∨ dds.mPixelFormat.mFourCC = 0x33545844 ∨
      dds.mPixelFormat.mFourCC = 0x35545844)
    (hps : pvrFileSize < 4294967296) (hds : ddsFileSize < 4294967296)
    (hpe : 52 + pvr.mMetaDataSize +
      ((LoadTexturePVRTC pvrFileSize pvr handle).uploads.map (fun u => u.imageSize)).sum
        ≤ pvrFileSize)
    (hde : 128 +
      ((LoadTextureS3TC ddsFileSize dds handle).uploads.map (fun u => u.imageSize)).sum
        ≤ ddsFileSize) :
    ((∀ u ∈ (LoadTexturePVRTC pvrFileSize pvr handle).uploads,
          u.data + u.imageSize ≤ pvrFileSize) ∧
        (∀ u, (LoadTexturePVRTC pvrFileSize pvr handle).uploads.getLast? = some u →
          u.data + u.imageSize ≤ pvrFileSize) ∧
        ∀ n, LoadTexturePVRTC n pvr handle = LoadTexturePVRTC pvrFileSize pvr handle) ∧
      ((∀ u ∈ (LoadTextureS3TC ddsFileSize dds handle).uploads,
          u.data + u.imageSize ≤ ddsFileSize) ∧
        (∀ u, (LoadTextureS3TC ddsFileSize dds handle).uploads.getLast? = some u →
          u.data + u.imageSize ≤ ddsFileSize) ∧
        ∀ n, LoadTextureS3TC n dds handle = LoadTextureS3TC ddsFileSize dds handle) := by
  obtain ⟨pf, hpf⟩ := pvrtcFormat_of_lt _ hp
  obtain ⟨df, hdf⟩ := s3tcFormat_of_code _ hd
  have h52 : sizeof_PVRHeaderV3 = 52 := by decide
  have h128 : sizeof_DDSHeader = 128 := by decide
  have hP : ∀ u ∈ (LoadTexturePVRTC pvrFileSize pvr handle).uploads,
      u.data + u.imageSize ≤ pvrFileSize := by
    rw [LoadTexturePVRTC_uploads _ _ _ _ _ hpf] at hpe ⊢
    have hoff : (sizeof_PVRHeaderV3 + pvr.mMetaDataSize) % 4294967296
        = 52 + pvr.mMetaDataSize := by
      rw [h52]
      exact Nat.mod_eq_of_lt (by omega)
    rw [hoff] at hpe ⊢
    exact levelAt_end_le _ _ _ _ _ _ _ _ _ hps (by omega)
  have hD : ∀ u ∈ (LoadTextureS3TC ddsFileSize dds handle).uploads,
      u.data + u.imageSize ≤ ddsFileSize := by
    rw [LoadTextureS3TC_uploads _ _ _ _ _ hdf] at hde ⊢
    rw [h128] at hde ⊢
    exact levelAt_end_le _ _ _ _ _ _ _ _ _ hds (by omega)
  exact ⟨⟨hP, fun u hu => hP u (List.mem_of_getLast?_eq_some hu), fun _ => rfl⟩,
    ⟨hD, fun u hu => hD u (List.mem_of_getLast?_eq_some hu), fun _ => rfl⟩⟩

/-- C6 witness: the complete three-level PVR asset of 2740 bytes and the complete three-level
DXT5 asset of 464 bytes; their last levels end exactly at the end of the asset. -/
theorem C6_levels_within_asset_witness :
    (pvrHeader 2 64 64 3 0).mPixelFormat < 4 ∧
      ((ddsHeader 0x35545844 16 16 3).mPixelFormat.mFourCC = 0x31545844 ∨
        (ddsHeader 0x35545844 16 16 3).mPixelFormat.mFourCC = 0x33545844 ∨
        (ddsHeader 0x35545844 16 16 3).mPixelFormat.mFourCC = 0x35545844) ∧
      (2740 < 4294967296 ∧ 464 < 4294967296) ∧
      52 + (pvrHeader 2 64 64 3 0).mMetaDataSize +
        ((LoadTexturePVRTC 2740 (pvrHeader 2 64 64 3 0) 1).uploads.map
          (fun u => u.imageSize)).sum ≤ 2740 ∧
      128 + ((LoadTextureS3TC 464 (ddsHeader 0x35545844 16 16 3) 1).uploads.map
          (fun u => u.imageSize)).sum ≤ 464 ∧
      (LoadTexturePVRTC 2740 (pvrHeader 2 64 64 3 0) 1).uploads.getLast?
        = some ⟨GL_TEXTURE_2D, 2, GL_COMPRESSED_RGB_PVRTC_4BPPV1_IMG, 16, 16, 0, 128, 2612⟩ ∧
      (LoadTextureS3TC 464 (ddsHeader 0x35545844 16 16 3) 1).uploads.getLast?
        = some ⟨GL_TEXTURE_2D, 2, GL_COMPRESSED_RGBA_S3TC_DXT5_EXT, 4, 4, 0, 16, 448⟩ ∧
      (2612 + 128 ≤ 2740 ∧ 448 + 16 ≤ 464) :=
  have hpe : 52 + (pvrHeader 2 64 64 3 0).mMetaDataSize +
      ((LoadTexturePVRTC 2740 (pvrHeader 2 64 64 3 0) 1).uploads.map
        (fun u => u.imageSize)).sum ≤ 2740 := by
    rw [LoadTexturePVRTC_uploads 2740 (pvrHeader 2 64 64 3 0) 1
      GL_COMPRESSED_RGB_PVRTC_4BPPV1_IMG 4 rfl]
    decide
  have hde : 128 + ((LoadTextureS3TC 464 (ddsHeader 0x35545844 16 16 3) 1).uploads.map
      (fun u => u.imageSize)).sum ≤ 464 := by
    rw [LoadTextureS3TC_uploads 464 (ddsHeader 0x35545844 16 16 3) 1
      GL_COMPRESSED_RGBA_S3TC_DXT5_EXT 16 rfl]
    decide
  have hpl : (LoadTexturePVRTC 2740 (pvrHeader 2 64 64 3 0) 1).uploads.getLast?
      = some ⟨GL_TEXTURE_2D, 2, GL_COMPRESSED_RGB_PVRTC_4BPPV1_IMG, 16, 16, 0, 128, 2612⟩ := by
    rw [LoadTexturePVRTC_uploads 2740 (pvrHeader 2 64 64 3 0) 1
      GL_COMPRESSED_RGB_PVRTC_4BPPV1_IMG 4 rfl]
    decide
  have hdl : (LoadTextureS3TC 464 (ddsHeader 0x35545844 16 16 3) 1).uploads.getLast?
      = some ⟨GL_TEXTURE_2D, 2, GL_COMPRESSED_RGBA_S3TC_DXT5_EXT, 4, 4, 0, 16, 448⟩ := by
    rw [LoadTextureS3TC_uploads 464 (ddsHeader 0x35545844 16 16 3) 1
      GL_COMPRESSED_RGBA_S3TC_DXT5_EXT 16 rfl]
    decide
  have hall := C6_levels_within_asset 2740 464 (pvrHeader 2 64 64 3 0)
    (ddsHeader 0x35545844 16 16 3) 1 (by decide) (Or.inr (Or.inr rfl)) (by decide) (by decide)
    hpe hde
  ⟨by decide, Or.inr (Or.inr rfl), ⟨by decide, by decide⟩, hpe, hde, hpl, hdl,
    ⟨hall.1.2.1 _ hpl, hall.2.2.1 _ hdl⟩⟩

/-! ## C7, C8: end-to-end scenarios -/

/-- C7: for every PVR header with pixelFormat = 2, width = 64, height = 64, mipmapCount = 3
and metaDataSize = 0, `LoadTexturePVRTC` uploads exactly three levels, with byte sizes
[2048, 512, 128] and dimensions [(64,64), (32,32), (16,16)], in that order. -/
theorem C7_pvr_scenario (fileSize : Nat) (hdr : PVRHeaderV3) (handle : Nat)
    (hpf : hdr.mPixelFormat = 2) (hw : hdr.mWidth = 64) (hh : hdr.mHeight = 64)
    (hm : hdr.mMipmapCount = 3) (hmeta : hdr.mMetaDataSize = 0) :
    (LoadTexturePVRTC fileSize hdr handle).uploads.length = 3 ∧
      (LoadTexturePVRTC fileSize hdr handle).uploads.map (fun u => u.imageSize)
        = [2048, 512, 128] ∧
      (LoadTexturePVRTC fileSize hdr handle).uploads.map (fun u => (u.width, u.height))
        = [(64, 64), (32, 32), (16, 16)] ∧
      (LoadTexturePVRTC fileSize hdr handle).uploads.map (fun u => u.level) = [0, 1, 2] := by
  have hf : pvrtcFormat hdr.mPixelFormat = some (GL_COMPRESSED_RGB_PVRTC_4BPPV1_IMG, 4) := by
    rw [hpf]; rfl
  rw [LoadTexturePVRTC_uploads _ _ _ _ _ hf, hw, hh, hm, hmeta]
  decide

/-- C7 witness: the header built by `pvrHeader 2 64 64 3 0`. -/
theorem C7_pvr_scenario_witness :
    ((pvrHeader 2 64 64 3 0).mPixelFormat = 2 ∧ (pvrHeader 2 64 64 3 0).mWidth = 64 ∧
        (pvrHeader 2 64 64 3 0).mHeight = 64 ∧ (pvrHeader 2 64 64 3 0).mMipmapCount = 3 ∧
        (pvrHeader 2 64 64 3 0).mMetaDataSize = 0) ∧
      (LoadTexturePVRTC 2740 (pvrHeader 2 64 64 3 0) 1).uploads.map (fun u => u.imageSize)
        = [2048, 512, 128] :=
  ⟨⟨rfl, rfl, rfl, rfl, rfl⟩,
    (C7_pvr_scenario 2740 (pvrHeader 2 64 64 3 0) 1 rfl rfl rfl rfl rfl).2.1⟩

/-- C8: for every DDS header with FourCC 'DXT1' (0x31545844), width = 10, height = 10 and
mipMapCount = 1, `LoadTextureS3TC` uploads exactly one level, of dimensions (10, 10) and byte
size 3 * 3 * 8 = 72. -/
theorem C8_dds_scenario (fileSize : Nat) (hdr : DDSHeader) (handle : Nat)
    (hcc : hdr.mPixelFormat.mFourCC = 0x31545844) (hw : hdr.mWidth = 10)
    (hh : hdr.mHeight = 10) (hm : hdr.mMipMapCount = 1) :
    (LoadTextureS3TC fileSize hdr handle).uploads.length = 1 ∧
      (LoadTextureS3TC fileSize hdr handle).uploads.map
          (fun u => (u.level, u.width, u.height, u.imageSize))
        = [(0, 10, 10, 72)] ∧
      (72 : Nat) = 3 * 3 * 8 ∧ fourCC 'D' 'X' 'T' '1' = 0x31545844 := by
  have hf : s3tcFormat hdr.mPixelFormat.mFourCC = some (GL_COMPRESSED_RGBA_S3TC_DXT1_EXT, 8) := by
    rw [hcc]; rfl
  rw [LoadTextureS3TC_uploads _ _ _ _ _ hf, hw, hh, hm]
  decide

/-- C8 witness: the header built by `ddsHeader 0x31545844 10 10 1`. -/
theorem C8_dds_scenario_witness :
    ((ddsHeader 0x31545844 10 10 1).mPixelFormat.mFourCC = 0x31545844 ∧
        (ddsHeader 0x31545844 10 10 1).mWidth = 10 ∧ (ddsHeader 0x31545844 10 10 1).mHeight = 10 ∧
        (ddsHeader 0x31545844 10 10 1).mMipMapCount = 1) ∧
      (LoadTextureS3TC 200 (ddsHeader 0x31545844 10 10 1) 1).uploads.map
          (fun u => (u.level, u.width, u.height, u.imageSize))
        = [(0, 10, 10, 72)] :=
  ⟨⟨rfl, rfl, rfl, rfl⟩,
    (C8_dds_scenario 200 (ddsHeader 0x31545844 10 10 1) 1 rfl rfl rfl rfl).2.1⟩

/-! ## C9, C10: format dispatch -/

theorem pvrtcFormat_of_ge (c : Nat) (hc : 4 ≤ c) : pvrtcFormat c = none := by
  match c, hc with
  | n + 4, _ => rfl

theorem s3tcFormat_of_other (c : Nat) (h1 : c ≠ 0x31545844) (h3 : c ≠ 0x33545844)
    (h5 : c ≠ 0x35545844) : s3tcFormat c = none := by
  simp [s3tcFormat, h1, h3, h5]

theorem LoadTexturePVRTC_of_none (fileSize : Nat) (hdr : PVRHeaderV3) (handle : Nat)
    (hf : pvrtcFormat hdr.mPixelFormat = none) :
    (LoadTexturePVRTC fileSize hdr handle).assertFailed = true ∧
      (LoadTexturePVRTC fileSize hdr handle).ret = 0 ∧
      (LoadTexturePVRTC fileSize hdr handle).uploads = [] := by
  unfold LoadTexturePVRTC LoadResult.uploads
  rw [hf]
  refine ⟨rfl, rfl, ?_⟩
  dsimp only
  split <;> rfl

theorem LoadTextureS3TC_of_none (fileSize : Nat) (hdr : DDSHeader) (handle : Nat)
    (hf : s3tcFormat hdr.mPixelFormat.mFourCC = none) :
    (LoadTextureS3TC fileSize hdr handle).assertFailed = true ∧
      (LoadTextureS3TC fileSize hdr handle).ret = 0 ∧
      (LoadTextureS3TC fileSize hdr handle).uploads = [] := by
  unfold LoadTextureS3TC LoadResult.uploads
  rw [hf]
  refine ⟨rfl, rfl, ?_⟩
  dsimp only
  split <;> rfl

theorem LoadTexturePVRTC_of_some (fileSize : Nat) (hdr : PVRHeaderV3) (handle format bpp : Nat)
    (hf : pvrtcFormat hdr.mPixelFormat = some (format, bpp)) :
    (LoadTexturePVRTC fileSize hdr handle).assertFailed = false ∧
      (LoadTexturePVRTC fileSize hdr handle).ret = handle := by
  unfold LoadTexturePVRTC
  rw [hf]
  exact ⟨rfl, rfl⟩

theorem LoadTextureS3TC_of_some (fileSize : Nat) (hdr : DDSHeader) (handle format bs : Nat)
    (hf : s3tcFormat hdr.mPixelFormat.mFourCC = some (format, bs)) :
    (LoadTextureS3TC fileSize hdr handle).assertFailed = false ∧
      (LoadTextureS3TC fileSize hdr handle).ret = handle := by
  unfold LoadTextureS3TC
  rw [hf]
  exact ⟨rfl, rfl⟩

theorem range_map_ne_nil {α : Type} (f : Nat → α) (n : Nat) :
    (List.range (max 1 n)).map f ≠ [] := by
  intro h
  have hl := congrArg List.length h
  simp only [List.length_map, List.length_range, List.length_nil] at hl
  omega

theorem not_upload_of_uploads_nil (r : LoadResult) (h : r.uploads = []) :
    ∀ c ∈ r.calls, ∀ a, c ≠ GLCall.glCompressedTexImage2D a := by
  intro c hc a hca
  subst hca
  have hmem : a ∈ r.uploads := by
    unfold LoadResult.uploads
    exact List.mem_filterMap.mpr ⟨_, hc, rfl⟩
  rw [h] at hmem
  exact List.not_mem_nil _ hmem

theorem pvrtcDecodesAs_of_some (fileSize : Nat) (hdr : PVRHeaderV3) (handle format bpp : Nat)
    (hf : pvrtcFormat hdr.mPixelFormat = some (format, bpp)) :
    pvrtcDecodesAs (LoadTexturePVRTC fileSize hdr handle) handle format bpp := by
  obtain ⟨h1, h2⟩ := LoadTexturePVRTC_of_some fileSize hdr handle format bpp hf
  refine ⟨h1, h2, ?_, ?_⟩
  · rw [LoadTexturePVRTC_uploads _ _ _ _ _ hf]
    exact range_map_ne_nil _ _
  · intro u hu
    rw [LoadTexturePVRTC_uploads _ _ _ _ _ hf] at hu
    obtain ⟨k, -, rfl⟩ := mem_range_map_levelAt _ _ _ _ _ _ _ _ _ hu
    exact ⟨rfl, pvrtcSize_eq _ _ _⟩

theorem s3tcDecodesAs_of_some (fileSize : Nat) (hdr : DDSHeader) (handle format bs : Nat)
    (hf : s3tcFormat hdr.mPixelFormat.mFourCC = some (format, bs)) :
    s3tcDecodesAs (LoadTextureS3TC fileSize hdr handle) handle format bs := by
  obtain ⟨h1, h2⟩ := LoadTextureS3TC_of_some fileSize hdr handle format bs hf
  refine ⟨h1, h2, ?_, ?_⟩
  · rw [LoadTextureS3TC_uploads _ _ _ _ _ hf]
    exact range_map_ne_nil _ _
  · intro u hu
    rw [LoadTextureS3TC_uploads _ _ _ _ _ hf] at hu
    obtain ⟨k, -, rfl⟩ := mem_range_map_levelAt _ _ _ _ _ _ _ _ _ hu
    refine ⟨rfl, ?_⟩
    show s3tcSize _ _ _ = _
    unfold s3tcSize
    simp only [Nat.shiftRight_eq_div_pow]
    rfl

/-- C9: `LoadTexturePVRTC` maps the pixel-format code by the table 0 -> PVRTC 2bpp RGB
(2 bits per pixel), 1 -> PVRTC 2bpp RGBA (2), 2 -> PVRTC 4bpp RGB (4), 3 -> PVRTC 4bpp RGBA (4);
for every other code the decode fails (`assert(0)`, return value 0) and no
`glCompressedTexImage2D` call is issued. -/
theorem C9_pvrtc_format_dispatch (fileSize : Nat) (hdr : PVRHeaderV3) (handle : Nat) :
    (hdr.mPixelFormat = 0 → pvrtcDecodesAs (LoadTexturePVRTC fileSize hdr handle) handle
        GL_COMPRESSED_RGB_PVRTC_2BPPV1_IMG 2) ∧
      (hdr.mPixelFormat = 1 → pvrtcDecodesAs (LoadTexturePVRTC fileSize hdr handle) handle
        GL_COMPRESSED_RGBA_PVRTC_2BPPV1_IMG 2) ∧
      (hdr.mPixelFormat = 2 → pvrtcDecodesAs (LoadTexturePVRTC fileSize hdr handle) handle
        GL_COMPRESSED_RGB_PVRTC_4BPPV1_IMG 4) ∧
      (hdr.mPixelFormat = 3 → pvrtcDecodesAs (LoadTexturePVRTC fileSize hdr handle) handle
        GL_COMPRESSED_RGBA_PVRTC_4BPPV1_IMG 4) ∧
      (4 ≤ hdr.mPixelFormat → decodeFails (LoadTexturePVRTC fileSize hdr handle)) ∧
      (GL_COMPRESSED_RGB_PVRTC_4BPPV1_IMG = 0x8C00 ∧ GL_COMPRESSED_RGB_PVRTC_2BPPV1_IMG = 0x8C01 ∧
        GL_COMPRESSED_RGBA_PVRTC_4BPPV1_IMG = 0x8C02 ∧
        GL_COMPRESSED_RGBA_PVRTC_2BPPV1_IMG = 0x8C03) := by
  refine ⟨fun h => ?_, fun h => ?_, fun h => ?_, fun h => ?_, fun h => ?_, rfl, rfl, rfl, rfl⟩
  · exact pvrtcDecodesAs_of_some _ _ _ _ _ (by rw [h]; rfl)
  · exact pvrtcDecodesAs_of_some _ _ _ _ _ (by rw [h]; rfl)
  · exact pvrtcDecodesAs_of_some _ _ _ _ _ (by rw [h]; rfl)
  · exact pvrtcDecodesAs_of_some _ _ _ _ _ (by rw [h]; rfl)
  · obtain ⟨h1, h2, h3⟩ := LoadTexturePVRTC_of_none fileSize hdr handle (pvrtcFormat_of_ge _ h)
    exact ⟨h1, h2, h3, not_upload_of_uploads_nil _ h3⟩

/-- C9 witness: code 1 decodes as PVRTC 2bpp RGBA and code 7 fails with the setup calls only. -/
theorem C9_pvrtc_format_dispatch_witness :
    ((pvrHeader 1 8 8 1 0).mPixelFormat = 1 ∧
        pvrtcDecodesAs (LoadTexturePVRTC 84 (pvrHeader 1 8 8 1 0) 5) 5
          GL_COMPRESSED_RGBA_PVRTC_2BPPV1_IMG 2) ∧
      (4 ≤ (pvrHeader 7 8 8 1 0).mPixelFormat ∧
        decodeFails (LoadTexturePVRTC 84 (pvrHeader 7 8 8 1 0) 5) ∧
        LoadTexturePVRTC 84 (pvrHeader 7 8 8 1 0) 5
          = ⟨[.glGenTextures 1 5, .glBindTexture GL_TEXTURE_2D 5,
              .glTexParameteri GL_TEXTURE_2D GL_TEXTURE_MAG_FILTER GL_LINEAR,
              .glTexParameteri GL_TEXTURE_2D GL_TEXTURE_MIN_FILTER GL_LINEAR], true, 0⟩) :=
  ⟨⟨rfl, (C9_pvrtc_format_dispatch 84 (pvrHeader 1 8 8 1 0) 5).2.1 rfl⟩,
    ⟨by decide, (C9_pvrtc_format_dispatch 84 (pvrHeader 7 8 8 1 0) 5).2.2.2.2.1 (by decide),
      by decide⟩⟩

/-- C10: `LoadTextureS3TC` maps the FourCC by the table 'DXT1' (0x31545844) -> DXT1 with
blockSize 8, 'DXT3' (0x33545844) -> DXT3 with blockSize 16, 'DXT5' (0x35545844) -> DXT5 with
blockSize 16; for every other FourCC the decode fails (`assert(0)`, return value 0) and no level
upload is issued. -/
theorem C10_s3tc_format_dispatch (fileSize : Nat) (hdr : DDSHeader) (handle : Nat) :
    (hdr.mPixelFormat.mFourCC = 0x31545844 →
        s3tcDecodesAs (LoadTextureS3TC fileSize hdr handle) handle
          GL_COMPRESSED_RGBA_S3TC_DXT1_EXT 8) ∧
      (hdr.mPixelFormat.mFourCC = 0x33545844 →
        s3tcDecodesAs (LoadTextureS3TC fileSize hdr handle) handle
          GL_COMPRESSED_RGBA_S3TC_DXT3_EXT 16) ∧
      (hdr.mPixelFormat.mFourCC = 0x35545844 →
        s3tcDecodesAs (LoadTextureS3TC fileSize hdr handle) handle
          GL_COMPRESSED_RGBA_S3TC_DXT5_EXT 16) ∧
      (hdr.mPixelFormat.mFourCC ≠ 0x31545844 → hdr.mPixelFormat.mFourCC ≠ 0x33545844 →
        hdr.mPixelFormat.mFourCC ≠ 0x35545844 →
        decodeFails (LoadTextureS3TC fileSize hdr handle)) ∧
      (fourCC 'D' 'X' 'T' '1' = 0x31545844 ∧ fourCC 'D' 'X' 'T' '3' = 0x33545844 ∧
        fourCC 'D' 'X' 'T' '5' = 0x35545844) ∧
      (GL_COMPRESSED_RGBA_S3TC_DXT1_EXT = 0x83F1 ∧ GL_COMPRESSED_RGBA_S3TC_DXT3_EXT = 0x83F2 ∧
        GL_COMPRESSED_RGBA_S3TC_DXT5_EXT = 0x83F3) := by
  refine ⟨fun h => ?_, fun h => ?_, fun h => ?_, fun h1 h3 h5 => ?_,
    ⟨by decide, by decide, by decide⟩, rfl, rfl, rfl⟩
  · exact s3tcDecodesAs_of_some _ _ _ _ _ (by rw [h]; rfl)
  · exact s3tcDecodesAs_of_some _ _ _ _ _ (by rw [h]; rfl)
  · exact s3tcDecodesAs_of_some _ _ _ _ _ (by rw [h]; rfl)
  · obtain ⟨k1, k2, k3⟩ :=
      LoadTextureS3TC_of_none fileSize hdr handle (s3tcFormat_of_other _ h1 h3 h5)
    exact ⟨k1, k2, k3, not_upload_of_uploads_nil _ k3⟩

/-- C10 witness: 'DXT3' decodes with blockSize 16 and 'DXT2' (0x32545844) fails with the setup
calls only. -/
theorem C10_s3tc_format_dispatch_witness :
    ((ddsHeader 0x33545844 8 8 1).mPixelFormat.mFourCC = 0x33545844 ∧
        s3tcDecodesAs (LoadTextureS3TC 192 (ddsHeader 0x33545844 8 8 1) 5) 5
          GL_COMPRESSED_RGBA_S3TC_DXT3_EXT 16) ∧
      ((ddsHeader 0x32545844 8 8 1).mPixelFormat.mFourCC ≠ 0x31545844 ∧
        (ddsHeader 0x32545844 8 8 1).mPixelFormat.mFourCC ≠ 0x33545844 ∧
        (ddsHeader 0x32545844 8 8 1).mPixelFormat.mFourCC ≠ 0x35545844 ∧
        decodeFails (LoadTextureS3TC 192 (ddsHeader 0x32545844 8 8 1) 5) ∧
        LoadTextureS3TC 192 (ddsHeader 0x32545844 8 8 1) 5
          = ⟨[.glGenTextures 1 5, .glBindTexture GL_TEXTURE_2D 5,
              .glTexParameteri GL_TEXTURE_2D GL_TEXTURE_MAG_FILTER GL_LINEAR,
              .glTexParameteri GL_TEXTURE_2D GL_TEXTURE_MIN_FILTER GL_LINEAR], true, 0⟩) :=
  ⟨⟨rfl, (C10_s3tc_format_dispatch 192 (ddsHeader 0x33545844 8 8 1) 5).2.1 rfl⟩,
    ⟨by decide, by decide, by decide,
      (C10_s3tc_format_dispatch 192 (ddsHeader 0x32545844 8 8 1) 5).2.2.2.1
        (by decide) (by decide) (by decide),
      by decide⟩⟩

/-! ## C11: PNG channel-count dispatch -/

theorem pngFormat_of_outside (n : Int) (h : n < 1 ∨ 4 < n) : pngFormat n = none := by
  have h1 : n ≠ 1 := by omega
  have h2 : n ≠ 2 := by omega
  have h3 : n ≠ 3 := by omega
  have h4 : n ≠ 4 := by omega
  simp [pngFormat, h1, h2, h3, h4]

theorem pngDecodesAs_of_some (width height numComponents : Int) (handle format : Nat)
    (hf : pngFormat numComponents = some format) :
    pngDecodesAs (LoadTexturePNG width height numComponents handle) width height handle
      format := by
  unfold LoadTexturePNG
  rw [hf]
  exact ⟨rfl, rfl, rfl⟩

theorem pngDecodeFails_of_none (width height numComponents : Int) (handle : Nat)
    (hf : pngFormat numComponents = none) :
    pngDecodeFails (LoadTexturePNG width height numComponents handle) := by
  unfold LoadTexturePNG
  rw [hf]
  exact ⟨rfl, rfl, rfl⟩

/-- C11: in `LoadTexturePNG` the channel count selects the format by 1 -> Luminance,
2 -> LuminanceAlpha, 3 -> RGB, 4 -> RGBA, so a format is chosen for every count in 1..4; for
every channel count outside 1..4 no format is chosen, the result is the error outcome
(`assert(0)`, return value 0) and no `glTexImage2D` call is issued. -/
theorem C11_png_format_dispatch (width height numComponents : Int) (handle : Nat) :
    (numComponents = 1 → pngDecodesAs (LoadTexturePNG width height numComponents handle)
        width height handle GL_LUMINANCE) ∧
      (numComponents = 2 → pngDecodesAs (LoadTexturePNG width height numComponents handle)
        width height handle GL_LUMINANCE_ALPHA) ∧
      (numComponents = 3 → pngDecodesAs (LoadTexturePNG width height numComponents handle)
        width height handle GL_RGB) ∧
      (numComponents = 4 → pngDecodesAs (LoadTexturePNG width height numComponents handle)
        width height handle GL_RGBA) ∧
      (1 ≤ numComponents → numComponents ≤ 4 →
        ∃ format, pngFormat numComponents = some format ∧
          pngDecodesAs (LoadTexturePNG width height numComponents handle)
            width height handle format) ∧
      (numComponents < 1 ∨ 4 < numComponents →
        pngFormat numComponents = none ∧
          pngDecodeFails (LoadTexturePNG width height numComponents handle)) := by
  refine ⟨fun h => ?_, fun h => ?_, fun h => ?_, fun h => ?_, fun hlo hhi => ?_, fun h => ?_⟩
  · exact pngDecodesAs_of_some _ _ _ _ _ (by rw [h]; rfl)
  · exact pngDecodesAs_of_some _ _ _ _ _ (by rw [h]; rfl)
  · exact pngDecodesAs_of_some _ _ _ _ _ (by rw [h]; rfl)
  · exact pngDecodesAs_of_some _ _ _ _ _ (by rw [h]; rfl)
  · have hc : numComponents = 1 ∨ numComponents = 2 ∨ numComponents = 3 ∨ numComponents = 4 := by
      omega
    rcases hc with h | h | h | h
    · exact ⟨GL_LUMINANCE, by rw [h]; rfl, pngDecodesAs_of_some _ _ _ _ _ (by rw [h]; rfl)⟩
    · exact ⟨GL_LUMINANCE_ALPHA, by rw [h]; rfl,
        pngDecodesAs_of_some _ _ _ _ _ (by rw [h]; rfl)⟩
    · exact ⟨GL_RGB, by rw [h]; rfl, pngDecodesAs_of_some _ _ _ _ _ (by rw [h]; rfl)⟩
    · exact ⟨GL_RGBA, by rw [h]; rfl, pngDecodesAs_of_some _ _ _ _ _ (by rw [h]; rfl)⟩
  · exact ⟨pngFormat_of_outside _ h, pngDecodeFails_of_none _ _ _ _ (pngFormat_of_outside _ h)⟩

/-- C11 witness: a 16 x 16 image with 3 channels is uploaded as RGB; channel counts 0, 5 and
-1 give the error outcome with the four setup calls only. -/
theorem C11_png_format_dispatch_witness :
    pngDecodesAs (LoadTexturePNG 16 16 3 7) 16 16 7 GL_RGB ∧
      ((0 : Int) < 1 ∨ (4 : Int) < 0) ∧ pngDecodeFails (LoadTexturePNG 16 16 0 7) ∧
      ((5 : Int) < 1 ∨ (4 : Int) < 5) ∧ pngDecodeFails (LoadTexturePNG 16 16 5 7) ∧
      LoadTexturePNG 16 16 (-1) 7
        = ⟨[.glGenTextures 1 7, .glBindTexture GL_TEXTURE_2D 7,
            .glTexParameteri GL_TEXTURE_2D GL_TEXTURE_MAG_FILTER GL_LINEAR,
            .glTexParameteri GL_TEXTURE_2D GL_TEXTURE_MIN_FILTER GL_LINEAR_MIPMAP_NEAREST],
            true, 0⟩ ∧
      LoadTexturePNG 16 16 3 7
        = ⟨[.glGenTextures 1 7, .glBindTexture GL_TEXTURE_2D 7,
            .glTexParameteri GL_TEXTURE_2D GL_TEXTURE_MAG_FILTER GL_LINEAR,
            .glTexParameteri GL_TEXTURE_2D GL_TEXTURE_MIN_FILTER GL_LINEAR_MIPMAP_NEAREST,
            .glTexImage2D GL_TEXTURE_2D 0 GL_RGB 16 16 0 GL_RGB GL_UNSIGNED_BYTE,
            .glGenerateMipmap GL_TEXTURE_2D], false, 7⟩ :=
  ⟨(C11_png_format_dispatch 16 16 3 7).2.2.1 rfl,
    Or.inl (by decide), ((C11_png_format_dispatch 16 16 0 7).2.2.2.2.2 (Or.inl (by decide))).2,
    Or.inr (by decide), ((C11_png_format_dispatch 16 16 5 7).2.2.2.2.2 (Or.inr (by decide))).2,
    by decide, by decide⟩

/-! ## C12: capability fallback in `Init` -/

/-- C12: in `Init`, for each capability-gated slot (ETC1, ETC2, PVRTC, S3TC): when the
slot's probe returns 0 the slot's handle is the value of `gTextureHandleUnsupported` (the
handle returned for "tex_bw.png") and the slot's decoder is not invoked; when the probe
returns non-zero the slot's handle is the value returned by its decoder, which is invoked.
The statement is for arbitrary probe values; in the program `IsETCSupported` and
`IsETC2Supported` only ever return 1. -/
theorem C12_init_fallback (env : InitEnv) :
    (Init env).handles.gTextureHandleUnsupported = env.LoadTexturePNG .tex_bw ∧
    ((env.IsETCSupported = 0 →
        (Init env).handles.gTextureHandleETC = (Init env).handles.gTextureHandleUnsupported ∧
          LoaderCall.LoadTextureETC_KTX .tex_etc1 ∉ (Init env).loaderCalls) ∧
      (env.IsETCSupported ≠ 0 →
        (Init env).handles.gTextureHandleETC = env.LoadTextureETC_KTX .tex_etc1 ∧
          LoaderCall.LoadTextureETC_KTX .tex_etc1 ∈ (Init env).loaderCalls)) ∧
    ((env.IsETC2Supported = 0 →
        (Init env).handles.gTextureHandleETC2 = (Init env).handles.gTextureHandleUnsupported ∧
          LoaderCall.LoadTextureETC_KTX .tex_etc2 ∉ (Init env).loaderCalls) ∧
      (env.IsETC2Supported ≠ 0 →
        (Init env).handles.gTextureHandleETC2 = env.LoadTextureETC_KTX .tex_etc2 ∧
          LoaderCall.LoadTextureETC_KTX .tex_etc2 ∈ (Init env).loaderCalls)) ∧
    ((env.IsPVRTCSupported = 0 →
        (Init env).handles.gTextureHandlePVRTC = (Init env).handles.gTextureHandleUnsupported ∧
          (∀ f, LoaderCall.LoadTexturePVRTC f ∉ (Init env).loaderCalls)) ∧
      (env.IsPVRTCSupported ≠ 0 →
        (Init env).handles.gTextureHandlePVRTC = env.LoadTexturePVRTC .tex_pvr ∧
          LoaderCall.LoadTexturePVRTC .tex_pvr ∈ (Init env).loaderCalls)) ∧
    ((env.IsS3TCSupported = 0 →
        (Init env).handles.gTextureHandleS3TC = (Init env).handles.gTextureHandleUnsupported ∧
          (∀ f, LoaderCall.LoadTextureS3TC f ∉ (Init env).loaderCalls)) ∧
      (env.IsS3TCSupported ≠ 0 →
        (Init env).handles.gTextureHandleS3TC = env.LoadTextureS3TC .tex_s3tc ∧
          LoaderCall.LoadTextureS3TC .tex_s3tc ∈ (Init env).loaderCalls)) := by
  by_cases h1 : env.IsETCSupported = 0 <;> by_cases h2 : env.IsETC2Supported = 0 <;>
    by_cases h3 : env.IsPVRTCSupported = 0 <;> by_cases h4 : env.IsS3TCSupported = 0 <;>
    simp [Init, h1, h2, h3, h4]

/-- C12 witness: with all four probes returning 0 every gated slot holds the fallback
handle and only the two PNG loads are made; with all four returning 1 every slot holds its
decoder's handle. -/
theorem C12_init_fallback_witness :
    ((sampleEnv 0 0 0 0).IsETCSupported = 0 ∧ (sampleEnv 0 0 0 0).IsETC2Supported = 0 ∧
        (sampleEnv 0 0 0 0).IsPVRTCSupported = 0 ∧ (sampleEnv 0 0 0 0).IsS3TCSupported = 0) ∧
      Init (sampleEnv 0 0 0 0)
        = ⟨⟨1, 2, 2, 2, 2, 2⟩, [.LoadTexturePNG .tex_png, .LoadTexturePNG .tex_bw]⟩ ∧
      ((sampleEnv 1 1 1 1).IsETCSupported ≠ 0 ∧ (sampleEnv 1 1 1 1).IsETC2Supported ≠ 0 ∧
        (sampleEnv 1 1 1 1).IsPVRTCSupported ≠ 0 ∧ (sampleEnv 1 1 1 1).IsS3TCSupported ≠ 0) ∧
      Init (sampleEnv 1 1 1 1)
        = ⟨⟨1, 2, 3, 4, 5, 6⟩,
            [.LoadTexturePNG .tex_png, .LoadTexturePNG .tex_bw, .LoadTextureETC_KTX .tex_etc1,
              .LoadTextureETC_KTX .tex_etc2, .LoadTexturePVRTC .tex_pvr,
              .LoadTextureS3TC .tex_s3tc]⟩ ∧
      ((Init (sampleEnv 0 0 0 0)).handles.gTextureHandlePVRTC
          = (Init (sampleEnv 0 0 0 0)).handles.gTextureHandleUnsupported ∧
        (∀ f, LoaderCall.LoadTexturePVRTC f ∉ (Init (sampleEnv 0 0 0 0)).loaderCalls)) ∧
      ((Init (sampleEnv 1 1 1 1)).handles.gTextureHandleS3TC
          = (sampleEnv 1 1 1 1).LoadTextureS3TC .tex_s3tc ∧
        LoaderCall.LoadTextureS3TC .tex_s3tc ∈ (Init (sampleEnv 1 1 1 1)).loaderCalls) :=
  ⟨⟨rfl, rfl, rfl, rfl⟩, by decide, ⟨by decide, by decide, by decide, by decide⟩, by decide,
    (C12_init_fallback (sampleEnv 0 0 0 0)).2.2.2.1.1 rfl,
    (C12_init_fallback (sampleEnv 1 1 1 1)).2.2.2.2.2 (by decide)⟩

/-! ## C14: ETC probes -/

theorem IsETCSupported_scan_eq (formats : List Int) (flag : Int) :
    IsETCSupported_scan formats flag = if GL_ETC1_RGB8_OES ∈ formats then 1 else flag := by
  induction formats generalizing flag with
  | nil => simp [IsETCSupported_scan]
  | cons f rest ih =>
    simp only [IsETCSupported_scan, ih, List.mem_cons]
    by_cases hf : f = GL_ETC1_RGB8_OES
    · simp [hf]
    · have hf2 : ¬ GL_ETC1_RGB8_OES = f := fun h => hf h.symm
      simp [hf, hf2]

theorem IsETCSupported_flag (formats : List Int) :
    (IsETCSupported formats).GLEW_OES_compressed_ETC1_RGB8_texture
      = if GL_ETC1_RGB8_OES ∈ formats then 1 else 0 := by
  unfold IsETCSupported
  cases formats with
  | nil => simp
  | cons f rest =>
    have hpos : ((f :: rest).length : Int) > 0 := by
      simp only [List.length_cons]
      omega
    simp only [hpos, if_true, IsETCSupported_scan_eq]

/-- C14: `IsETCSupported` returns 1 for every list of compressed formats the context
reports, the empty list included, and `IsETC2Supported` returns 1; the ETC1 presence test
only sets the global `GLEW_OES_compressed_ETC1_RGB8_texture`, which ends as 1 iff
`GL_ETC1_RGB8_OES` occurs in the list and as 0 otherwise. -/
theorem C14_etc_probes (formats : List Int) :
    (IsETCSupported formats).ret = 1 ∧ (IsETCSupported []).ret = 1 ∧ IsETC2Supported = 1 ∧
      ((IsETCSupported formats).GLEW_OES_compressed_ETC1_RGB8_texture = 1
        ↔ GL_ETC1_RGB8_OES ∈ formats) ∧
      ((IsETCSupported formats).GLEW_OES_compressed_ETC1_RGB8_texture = 0
        ↔ GL_ETC1_RGB8_OES ∉ formats) := by
  refine ⟨rfl, rfl, rfl, ?_, ?_⟩
  · rw [IsETCSupported_flag]
    by_cases h : GL_ETC1_RGB8_OES ∈ formats <;> simp [h]
  · rw [IsETCSupported_flag]
    by_cases h : GL_ETC1_RGB8_OES ∈ formats <;> simp [h]

/-- C14 example: a context that lists ETC1 among its formats, one that does not, and one
that reports no compressed format at all. -/
theorem C14_etc_probes_witness :
    IsETCSupported [0x83F0, 0x8D64, 0x83F3] = ⟨1, 1⟩ ∧ IsETCSupported [0x83F0, 0x83F3] = ⟨1, 0⟩ ∧
      IsETCSupported [] = ⟨1, 0⟩ ∧
      (IsETCSupported [0x83F0, 0x8D64, 0x83F3]).GLEW_OES_compressed_ETC1_RGB8_texture = 1 :=
  ⟨by decide, by decide, by decide,
    (C14_etc_probes [0x83F0, 0x8D64, 0x83F3]).2.2.2.1.mpr (by decide)⟩

/-! ## C15: mip count 0 behaves as mip count 1 -/

/-- C15: for every accepted PVR or DDS header the number of level uploads is
max(1, mipCount), and the header with mip count 0 is processed exactly like the same header
with mip count 1: the whole outcome, hence the sequence of uploads (index, dimensions,
byteSize, offset), is identical. -/
theorem C15_mip_count_zero_as_one (pvrFileSize ddsFileSize : Nat) (pvr : PVRHeaderV3)
    (dds : DDSHeader) (handle : Nat) (hp : pvr.mPixelFormat < 4)
    (hd : dds.mPixelFormat.mFourCC = 0x31545844 ∨ dds.mPixelFormat.mFourCC = 0x33545844 ∨
      dds.mPixelFormat.mFourCC = 0x35545844) :
    ((LoadTexturePVRTC pvrFileSize pvr handle).uploads.length = max 1 pvr.mMipmapCount ∧
      LoadTexturePVRTC pvrFileSize (pvr.withMipmapCount 0) handle
        = LoadTexturePVRTC pvrFileSize (pvr.withMipmapCount 1) handle ∧
      (LoadTexturePVRTC pvrFileSize (pvr.withMipmapCount 0) handle).uploads
        = (LoadTexturePVRTC pvrFileSize (pvr.withMipmapCount 1) handle).uploads ∧
      (LoadTexturePVRTC pvrFileSize (pvr.withMipmapCount 0) handle).uploads.length = 1) ∧
    ((LoadTextureS3TC ddsFileSize dds handle).uploads.length = max 1 dds.mMipMapCount ∧
      LoadTextureS3TC ddsFileSize (dds.withMipMapCount 0) handle
        = LoadTextureS3TC ddsFileSize (dds.withMipMapCount 1) handle ∧
      (LoadTextureS3TC ddsFileSize (dds.withMipMapCount 0) handle).uploads
        = (LoadTextureS3TC ddsFileSize (dds.withMipMapCount 1) handle).uploads ∧
      (LoadTextureS3TC ddsFileSize (dds.withMipMapCount 0) handle).uploads.length = 1) := by
  obtain ⟨pf, hpf⟩ := pvrtcFormat_of_lt _ hp
  obtain ⟨df, hdf⟩ := s3tcFormat_of_code _ hd
  have hP : LoadTexturePVRTC pvrFileSize (pvr.withMipmapCount 0) handle
      = LoadTexturePVRTC pvrFileSize (pvr.withMipmapCount 1) handle := by
    unfold LoadTexturePVRTC PVRHeaderV3.withMipmapCount
    simp only [hpf]
    rw [pvrtcMipLoop_eq 0 pf _ 0 0 _ _ _ rfl, pvrtcMipLoop_eq 1 pf _ 1 0 _ _ _ rfl]
    rfl
  have hD : LoadTextureS3TC ddsFileSize (dds.withMipMapCount 0) handle
      = LoadTextureS3TC ddsFileSize (dds.withMipMapCount 1) handle := by
    unfold LoadTextureS3TC DDSHeader.withMipMapCount
    simp only [hdf]
    rw [s3tcMipLoop_eq 0 df _ 0 0 _ _ _ rfl, s3tcMipLoop_eq 1 df _ 1 0 _ _ _ rfl]
    rfl
  have hpf0 : pvrtcFormat (pvr.withMipmapCount 0).mPixelFormat
      = some (pf, pvrtcBitsPerPixel pvr.mPixelFormat) := hpf
  have hdf0 : s3tcFormat (dds.withMipMapCount 0).mPixelFormat.mFourCC
      = some (df, s3tcBlockSize dds.mPixelFormat.mFourCC) := hdf
  refine ⟨⟨?_, hP, congrArg LoadResult.uploads hP, ?_⟩,
    ⟨?_, hD, congrArg LoadResult.uploads hD, ?_⟩⟩
  · rw [LoadTexturePVRTC_uploads _ _ _ _ _ hpf, List.length_map, List.length_range]
  · rw [LoadTexturePVRTC_uploads _ _ _ _ _ hpf0, List.length_map, List.length_range]
    rfl
  · rw [LoadTextureS3TC_uploads _ _ _ _ _ hdf, List.length_map, List.length_range]
  · rw [LoadTextureS3TC_uploads _ _ _ _ _ hdf0, List.length_map, List.length_range]
    rfl

/-- C15 witness: the 64 x 64, 4 bpp PVR header and the 10 x 10 DXT1 header, with mip count 0
and with mip count 1, each give the single level-0 upload. -/
theorem C15_mip_count_zero_as_one_witness :
    (pvrHeader 2 64 64 3 0).mPixelFormat < 4 ∧
      ((ddsHeader 0x31545844 10 10 3).mPixelFormat.mFourCC = 0x31545844 ∨
        (ddsHeader 0x31545844 10 10 3).mPixelFormat.mFourCC = 0x33545844 ∨
        (ddsHeader 0x31545844 10 10 3).mPixelFormat.mFourCC = 0x35545844) ∧
      (LoadTexturePVRTC 2100 ((pvrHeader 2 64 64 3 0).withMipmapCount 0) 1).uploads
        = [⟨GL_TEXTURE_2D, 0, GL_COMPRESSED_RGB_PVRTC_4BPPV1_IMG, 64, 64, 0, 2048, 52⟩] ∧
      (LoadTextureS3TC 200 ((ddsHeader 0x31545844 10 10 3).withMipMapCount 0) 1).uploads
        = [⟨GL_TEXTURE_2D, 0, GL_COMPRESSED_RGBA_S3TC_DXT1_EXT, 10, 10, 0, 72, 128⟩] ∧
      (LoadTexturePVRTC 2100 ((pvrHeader 2 64 64 3 0).withMipmapCount 0) 1
          = LoadTexturePVRTC 2100 ((pvrHeader 2 64 64 3 0).withMipmapCount 1) 1 ∧
        LoadTextureS3TC 200 ((ddsHeader 0x31545844 10 10 3).withMipMapCount 0) 1
          = LoadTextureS3TC 200 ((ddsHeader 0x31545844 10 10 3).withMipMapCount 1) 1) ∧
      ((LoadTexturePVRTC 2100 (pvrHeader 2 64 64 3 0) 1).uploads.length = 3 ∧
        (LoadTextureS3TC 200 (ddsHeader 0x31545844 10 10 3) 1).uploads.length = 3) :=
  have h := C15_mip_count_zero_as_one 2100 200 (pvrHeader 2 64 64 3 0)
    (ddsHeader 0x31545844 10 10 3) 1 (by decide) (Or.inl rfl)
  ⟨by decide, Or.inl rfl,
    by rw [LoadTexturePVRTC_uploads 2100 ((pvrHeader 2 64 64 3 0).withMipmapCount 0) 1
          GL_COMPRESSED_RGB_PVRTC_4BPPV1_IMG 4 rfl]
       decide,
    by rw [LoadTextureS3TC_uploads 200 ((ddsHeader 0x31545844 10 10 3).withMipMapCount 0) 1
          GL_COMPRESSED_RGBA_S3TC_DXT1_EXT 8 rfl]
       decide,
    ⟨h.1.2.1, h.2.2.1⟩, ⟨h.1.1, h.2.1⟩⟩

/-! ## C16: closed form of the mip dimensions -/

theorem dimAt_eq_max (d k : Nat) (hd : 1 ≤ d) : dimAt d k = max 1 (d / 2 ^ k) := by
  induction k with
  | zero =>
    simp only [dimAt, pow_zero, Nat.div_one]
    omega
  | succ k ih =>
    have hdiv : d / 2 ^ (k + 1) = d / 2 ^ k / 2 := by
      rw [pow_succ, Nat.div_div_eq_div_mul]
    simp only [dimAt, halveDim_eq, ih, hdiv, Nat.shiftRight_eq_div_pow, pow_one]
    omega

theorem dimAt_stays_one (d i j : Nat) (hd : 1 ≤ d) (hij : i ≤ j) (hi : dimAt d i = 1) :
    dimAt d j = 1 := by
  rw [dimAt_eq_max d i hd] at hi
  rw [dimAt_eq_max d j hd]
  have hpow : 2 ^ i ≤ 2 ^ j := Nat.pow_le_pow_right (by decide) hij
  have hle : d / 2 ^ j ≤ d / 2 ^ i := Nat.div_le_div_left hpow (by positivity)
  omega

theorem of_getElem?_range_map_levelAt (size : Nat → Nat → Nat)
    (base format mip w h offset n k : Nat) (u : CompressedTexImage2D)
    (hu : ((List.range n).map (levelAt size base format mip w h offset))[k]? = some u) :
    k < n ∧ u = levelAt size base format mip w h offset k := by
  by_cases hk : k < n
  · rw [getElem?_range_map_levelAt _ _ _ _ _ _ _ _ _ hk] at hu
    exact ⟨hk, (Option.some.inj hu).symm⟩
  · have hnone : ((List.range n).map (levelAt size base format mip w h offset))[k]? = none := by
      apply List.getElem?_eq_none
      simp only [List.length_map, List.length_range]
      omega
    rw [hnone] at hu
    exact absurd hu (by simp)

/-- C16: for every accepted header with width w0 >= 1 and height h0 >= 1, uploaded level k
has dimensions (max(1, floor(w0 / 2^k)), max(1, floor(h0 / 2^k))); every uploaded level has
width >= 1 and height >= 1, and a dimension that is 1 at some level is 1 at all later
levels. -/
theorem C16_dimension_closed_form (pvrFileSize ddsFileSize : Nat) (pvr : PVRHeaderV3)
    (dds : DDSHeader) (handle : Nat) (hp : pvr.mPixelFormat < 4)
    (hd : dds.mPixelFormat.mFourCC = 0x31545844 ∨ dds.mPixelFormat.mFourCC = 0x33545844 ∨
      dds.mPixelFormat.mFourCC = 0x35545844)
    (hpw : 1 ≤ pvr.mWidth) (hph : 1 ≤ pvr.mHeight)
    (hdw : 1 ≤ dds.mWidth) (hdh : 1 ≤ dds.mHeight) :
    ((∀ k u, (LoadTexturePVRTC pvrFileSize pvr handle).uploads[k]? = some u →
        u.level = k ∧ u.width = max 1 (pvr.mWidth / 2 ^ k) ∧
          u.height = max 1 (pvr.mHeight / 2 ^ k) ∧ 1 ≤ u.width ∧ 1 ≤ u.height) ∧
      ∀ (i j : Nat) (a b : CompressedTexImage2D), i ≤ j → (LoadTexturePVRTC pvrFileSize pvr handle).uploads[i]? = some a →
        (LoadTexturePVRTC pvrFileSize pvr handle).uploads[j]? = some b →
        (a.width = 1 → b.width = 1) ∧ (a.height = 1 → b.height = 1)) ∧
    ((∀ k u, (LoadTextureS3TC ddsFileSize dds handle).uploads[k]? = some u →
        u.level = k ∧ u.width = max 1 (dds.mWidth / 2 ^ k) ∧
          u.height = max 1 (dds.mHeight / 2 ^ k) ∧ 1 ≤ u.width ∧ 1 ≤ u.height) ∧
      ∀ (i j : Nat) (a b : CompressedTexImage2D), i ≤ j → (LoadTextureS3TC ddsFileSize dds handle).uploads[i]? = some a →
        (LoadTextureS3TC ddsFileSize dds handle).uploads[j]? = some b →
        (a.width = 1 → b.width = 1) ∧ (a.height = 1 → b.height = 1)) := by
  obtain ⟨pf, hpf⟩ := pvrtcFormat_of_lt _ hp
  obtain ⟨df, hdf⟩ := s3tcFormat_of_code _ hd
  rw [LoadTexturePVRTC_uploads _ _ _ _ _ hpf, LoadTextureS3TC_uploads _ _ _ _ _ hdf]
  refine ⟨⟨?_, ?_⟩, ⟨?_, ?_⟩⟩
  · intro k u hu
    obtain ⟨-, rfl⟩ := of_getElem?_range_map_levelAt _ _ _ _ _ _ _ _ _ _ hu
    have h1 := dimAt_eq_max pvr.mWidth k hpw
    have h2 := dimAt_eq_max pvr.mHeight k hph
    refine ⟨Nat.zero_add k, h1, h2, ?_, ?_⟩
    · show 1 ≤ dimAt pvr.mWidth k
      omega
    · show 1 ≤ dimAt pvr.mHeight k
      omega
  · intro i j a b hij ha hb
    obtain ⟨-, rfl⟩ := of_getElem?_range_map_levelAt _ _ _ _ _ _ _ _ _ _ ha
    obtain ⟨-, rfl⟩ := of_getElem?_range_map_levelAt _ _ _ _ _ _ _ _ _ _ hb
    exact ⟨dimAt_stays_one _ _ _ hpw hij, dimAt_stays_one _ _ _ hph hij⟩
  · intro k u hu
    obtain ⟨-, rfl⟩ := of_getElem?_range_map_levelAt _ _ _ _ _ _ _ _ _ _ hu
    have h1 := dimAt_eq_max dds.mWidth k hdw
    have h2 := dimAt_eq_max dds.mHeight k hdh
    refine ⟨Nat.zero_add k, h1, h2, ?_, ?_⟩
    · show 1 ≤ dimAt dds.mWidth k
      omega
    · show 1 ≤ dimAt dds.mHeight k
      omega
  · intro i j a b hij ha hb
    obtain ⟨-, rfl⟩ := of_getElem?_range_map_levelAt _ _ _ _ _ _ _ _ _ _ ha
    obtain ⟨-, rfl⟩ := of_getElem?_range_map_levelAt _ _ _ _ _ _ _ _ _ _ hb
    exact ⟨dimAt_stays_one _ _ _ hdw hij, dimAt_stays_one _ _ _ hdh hij⟩

/-- C16 witness: a 10 x 3 PVR asset and a 5 x 1 DDS asset with five levels each. -/
theorem C16_dimension_closed_form_witness :
    ((pvrHeader 3 10 3 5 0).mPixelFormat < 4 ∧
      ((ddsHeader 0x35545844 5 1 5).mPixelFormat.mFourCC = 0x31545844 ∨
        (ddsHeader 0x35545844 5 1 5).mPixelFormat.mFourCC = 0x33545844 ∨
        (ddsHeader 0x35545844 5 1 5).mPixelFormat.mFourCC = 0x35545844) ∧
      1 ≤ (pvrHeader 3 10 3 5 0).mWidth ∧ 1 ≤ (pvrHeader 3 10 3 5 0).mHeight ∧
      1 ≤ (ddsHeader 0x35545844 5 1 5).mWidth ∧ 1 ≤ (ddsHeader 0x35545844 5 1 5).mHeight) ∧
      (LoadTexturePVRTC 212 (pvrHeader 3 10 3 5 0) 1).uploads.map (fun u => (u.width, u.height))
        = [(10, 3), (5, 1), (2, 1), (1, 1), (1, 1)] ∧
      (LoadTextureS3TC 224 (ddsHeader 0x35545844 5 1 5) 1).uploads.map
          (fun u => (u.width, u.height))
        = [(5, 1), (2, 1), (1, 1), (1, 1), (1, 1)] ∧
      (LoadTexturePVRTC 212 (pvrHeader 3 10 3 5 0) 1).uploads[2]?
        = some ⟨GL_TEXTURE_2D, 2, GL_COMPRESSED_RGBA_PVRTC_4BPPV1_IMG, 2, 1, 0, 32, 116⟩ ∧
      ((2 : Nat) = max 1 ((pvrHeader 3 10 3 5 0).mWidth / 2 ^ 2) ∧
        (1 : Nat) = max 1 ((pvrHeader 3 10 3 5 0).mHeight / 2 ^ 2)) :=
  have hget : (LoadTexturePVRTC 212 (pvrHeader 3 10 3 5 0) 1).uploads[2]?
      = some ⟨GL_TEXTURE_2D, 2, GL_COMPRESSED_RGBA_PVRTC_4BPPV1_IMG, 2, 1, 0, 32, 116⟩ := by
    rw [LoadTexturePVRTC_uploads 212 (pvrHeader 3 10 3 5 0) 1
      GL_COMPRESSED_RGBA_PVRTC_4BPPV1_IMG 4 rfl]
    decide
  have h := (C16_dimension_closed_form 212 224 (pvrHeader 3 10 3 5 0)
    (ddsHeader 0x35545844 5 1 5) 1 (by decide) (Or.inr (Or.inr rfl)) (by decide) (by decide)
    (by decide) (by decide)).1.1 2 _ hget
  ⟨⟨by decide, Or.inr (Or.inr rfl), by decide, by decide, by decide, by decide⟩,
    by rw [LoadTexturePVRTC_uploads 212 (pvrHeader 3 10 3 5 0) 1
          GL_COMPRESSED_RGBA_PVRTC_4BPPV1_IMG 4 rfl]
       decide,
    by rw [LoadTextureS3TC_uploads 224 (ddsHeader 0x35545844 5 1 5) 1
          GL_COMPRESSED_RGBA_S3TC_DXT5_EXT 16 rfl]
       decide,
    hget, ⟨h.2.1, h.2.2.1⟩⟩

/-! ## C17: the size computation in 32-bit arithmetic -/

theorem pvrtcSize_eq_shift (bpp w h : Nat) :
    pvrtcSize bpp w h = max 32 (((w * h * bpp) % 4294967296) >>> 3) := by
  unfold pvrtcSize
  generalize ((w * h * bpp) % 4294967296) >>> 3 = x
  split <;> omega

/-- C17: the per-level size is computed modulo 2^32. In `LoadTexturePVRTC` it is
`max(32, ((w*h*bpp) mod 2^32) >> 3)`, hence always >= 32, and equals
`max(32, floor(w*h*bpp/8))` whenever `w*h*bpp < 2^32`; in `LoadTextureS3TC` it is
`(((w+3) mod 2^32) >> 2) * (((h+3) mod 2^32) >> 2) * blockSize mod 2^32` and equals
`ceil(w/4)*ceil(h/4)*blockSize` whenever `w + 3 < 2^32`, `h + 3 < 2^32` and that product is
below 2^32. -/
theorem C17_size_arithmetic (pvrFileSize ddsFileSize : Nat) (pvr : PVRHeaderV3)
    (dds : DDSHeader) (handle : Nat) (hp : pvr.mPixelFormat < 4)
    (hd : dds.mPixelFormat.mFourCC = 0x31545844 ∨ dds.mPixelFormat.mFourCC = 0x33545844 ∨
      dds.mPixelFormat.mFourCC = 0x35545844) :
    (∀ u ∈ (LoadTexturePVRTC pvrFileSize pvr handle).uploads,
      u.imageSize
          = max 32 (((u.width * u.height * pvrtcBitsPerPixel pvr.mPixelFormat) % 4294967296)
              >>> 3) ∧
        32 ≤ u.imageSize ∧ u.imageSize < 4294967296 ∧
        (u.width * u.height * pvrtcBitsPerPixel pvr.mPixelFormat < 4294967296 →
          u.imageSize
            = max 32 (u.width * u.height * pvrtcBitsPerPixel pvr.mPixelFormat / 8))) ∧
    (∀ u ∈ (LoadTextureS3TC ddsFileSize dds handle).uploads,
      u.imageSize
          = ((((u.width + 3) % 4294967296) >>> 2) * (((u.height + 3) % 4294967296) >>> 2)
              * s3tcBlockSize dds.mPixelFormat.mFourCC) % 4294967296 ∧
        u.imageSize < 4294967296 ∧
        (u.width + 3 < 4294967296 → u.height + 3 < 4294967296 →
          ceilDiv4 u.width * ceilDiv4 u.height * s3tcBlockSize dds.mPixelFormat.mFourCC
            < 4294967296 →
          u.imageSize
            = ceilDiv4 u.width * ceilDiv4 u.height
                * s3tcBlockSize dds.mPixelFormat.mFourCC)) := by
  obtain ⟨pf, hpf⟩ := pvrtcFormat_of_lt _ hp
  obtain ⟨df, hdf⟩ := s3tcFormat_of_code _ hd
  rw [LoadTexturePVRTC_uploads _ _ _ _ _ hpf, LoadTextureS3TC_uploads _ _ _ _ _ hdf]
  have hbs : 8 ≤ s3tcBlockSize dds.mPixelFormat.mFourCC := by
    rcases s3tcBlockSize_cases dds.mPixelFormat.mFourCC with h | h <;> omega
  constructor
  · intro u hu
    obtain ⟨k, -, rfl⟩ := mem_range_map_levelAt _ _ _ _ _ _ _ _ _ hu
    have h1 := pvrtcSize_eq_shift (pvrtcBitsPerPixel pvr.mPixelFormat)
      (dimAt pvr.mWidth k) (dimAt pvr.mHeight k)
    have h2 := pvrtcSize_eq (pvrtcBitsPerPixel pvr.mPixelFormat)
      (dimAt pvr.mWidth k) (dimAt pvr.mHeight k)
    refine ⟨h1, ?_, ?_, fun hlt => ?_⟩
    · show 32 ≤ pvrtcSize _ _ _
      omega
    · show pvrtcSize _ _ _ < 4294967296
      omega
    · show pvrtcSize _ _ _ = _
      rw [h2]
      exact congrArg (fun x => max 32 (x / 8)) (Nat.mod_eq_of_lt hlt)
  · intro u hu
    obtain ⟨k, -, rfl⟩ := mem_range_map_levelAt _ _ _ _ _ _ _ _ _ hu
    refine ⟨rfl, ?_, fun _ _ hlt => s3tcSize_eq_of_lt _ _ _ hbs hlt⟩
    show s3tcSize _ _ _ < 4294967296
    unfold s3tcSize
    exact Nat.mod_lt _ (by decide)

/-- C17 witness: level 0 of the 64 x 64, 4 bpp PVR asset (2048 bytes) and of the 10 x 10 DXT1
asset (72 bytes). -/
theorem C17_size_arithmetic_witness :
    ((pvrHeader 2 64 64 3 0).mPixelFormat < 4 ∧
      ((ddsHeader 0x31545844 10 10 1).mPixelFormat.mFourCC = 0x31545844 ∨
        (ddsHeader 0x31545844 10 10 1).mPixelFormat.mFourCC = 0x33545844 ∨
        (ddsHeader 0x31545844 10 10 1).mPixelFormat.mFourCC = 0x35545844)) ∧
      ((⟨GL_TEXTURE_2D, 0, GL_COMPRESSED_RGB_PVRTC_4BPPV1_IMG, 64, 64, 0, 2048, 52⟩ :
          CompressedTexImage2D) ∈ (LoadTexturePVRTC 2740 (pvrHeader 2 64 64 3 0) 1).uploads ∧
        64 * 64 * pvrtcBitsPerPixel 2 < 4294967296 ∧
        (2048 : Nat) = max 32 (64 * 64 * pvrtcBitsPerPixel 2 / 8)) ∧
      ((⟨GL_TEXTURE_2D, 0, GL_COMPRESSED_RGBA_S3TC_DXT1_EXT, 10, 10, 0, 72, 128⟩ :
          CompressedTexImage2D) ∈ (LoadTextureS3TC 200 (ddsHeader 0x31545844 10 10 1) 1).uploads ∧
        (10 + 3 < 4294967296 ∧
          ceilDiv4 10 * ceilDiv4 10 * s3tcBlockSize 0x31545844 < 4294967296) ∧
        (72 : Nat) = ceilDiv4 10 * ceilDiv4 10 * s3tcBlockSize 0x31545844) :=
  have hp : (⟨GL_TEXTURE_2D, 0, GL_COMPRESSED_RGB_PVRTC_4BPPV1_IMG, 64, 64, 0, 2048, 52⟩ :
      CompressedTexImage2D) ∈ (LoadTexturePVRTC 2740 (pvrHeader 2 64 64 3 0) 1).uploads := by
    rw [LoadTexturePVRTC_uploads 2740 (pvrHeader 2 64 64 3 0) 1
      GL_COMPRESSED_RGB_PVRTC_4BPPV1_IMG 4 rfl]
    decide
  have hd : (⟨GL_TEXTURE_2D, 0, GL_COMPRESSED_RGBA_S3TC_DXT1_EXT, 10, 10, 0, 72, 128⟩ :
      CompressedTexImage2D) ∈ (LoadTextureS3TC 200 (ddsHeader 0x31545844 10 10 1) 1).uploads := by
    rw [LoadTextureS3TC_uploads 200 (ddsHeader 0x31545844 10 10 1) 1
      GL_COMPRESSED_RGBA_S3TC_DXT1_EXT 8 rfl]
    decide
  have h := C17_size_arithmetic 2740 200 (pvrHeader 2 64 64 3 0)
    (ddsHeader 0x31545844 10 10 1) 1 (by decide) (Or.inl rfl)
  ⟨⟨by decide, Or.inl rfl⟩,
    ⟨hp, by decide, (h.1 _ hp).2.2.2 (by decide)⟩,
    ⟨hd, ⟨by decide, by decide⟩, (h.2 _ hd).2.2 (by decide) (by decide) (by decide)⟩⟩

/-! ## C13: offsets increase and ranges do not overlap -/

theorem cumSize_congr (f g : Nat → Nat) (n : Nat) (hfg : ∀ k, k < n → f k = g k) :
    cumSize f n = cumSize g n := by
  induction n with
  | zero => rfl
  | succ n ih =>
    simp only [cumSize]
    rw [ih (fun k hk => hfg k (by omega)), hfg n (by omega)]

theorem le_cumSize (size : Nat → Nat) (n k : Nat) (hk : k < n) :
    size k ≤ cumSize size n := by
  have h := cumSize_le size (Nat.succ_le_of_lt hk)
  simp only [cumSize] at h
  omega

theorem levelAt_ordered (size : Nat → Nat → Nat) (base format mip w h offset n i j : Nat)
    (hij : i < j) (hjn : j < n)
    (hnw : offset + cumSize (fun l => size (dimAt w l) (dimAt h l)) n < 4294967296)
    (hpos : ∀ k, k < n → 0 < size (dimAt w k) (dimAt h k)) :
    (levelAt size base format mip w h offset i).data
        < (levelAt size base format mip w h offset j).data ∧
      (levelAt size base format mip w h offset i).data
          + (levelAt size base format mip w h offset i).imageSize
        ≤ (levelAt size base format mip w h offset j).data := by
  have hin := cumSize_le (fun l => size (dimAt w l) (dimAt h l)) (Nat.le_of_lt (Nat.lt_trans hij hjn))
  have hjn2 := cumSize_le (fun l => size (dimAt w l) (dimAt h l)) (Nat.le_of_lt hjn)
  have hsucc := cumSize_le (fun l => size (dimAt w l) (dimAt h l)) (Nat.succ_le_of_lt hij)
  have hi := offsetAt_eq_of_lt (fun l => size (dimAt w l) (dimAt h l)) offset i (by omega)
  have hj := offsetAt_eq_of_lt (fun l => size (dimAt w l) (dimAt h l)) offset j (by omega)
  have hp := hpos i (Nat.lt_trans hij hjn)
  simp only [cumSize] at hsucc
  simp only [levelAt, hi, hj]
  omega

theorem ceilDiv4_pos (d : Nat) (hd : 1 ≤ d) : 1 ≤ ceilDiv4 d := by
  rw [ceilDiv4_eq]
  omega

theorem dimAt_pos (d k : Nat) (hd : 1 ≤ d) : 1 ≤ dimAt d k := by
  rw [dimAt_eq_max d k hd]
  omega

/-- C13, refuted as stated: both headers have width and height >= 1 and are accepted. For the
PVR header with metaDataSize = 2^32 - 84 and two 8 x 8 levels the `unsigned int` offset wraps:
level 0 is read at 2^32 - 32 and level 1 at 0. For the two-level DXT1 header of
262144 x 262144 the byteSize of level 0 wraps to 0, so levels 0 and 1 are read at the same
offset. -/
theorem C13_counterexample :
    (((pvrHeader 0 8 8 2 4294967212).WellFormed ∧ 1 ≤ (pvrHeader 0 8 8 2 4294967212).mWidth ∧
        1 ≤ (pvrHeader 0 8 8 2 4294967212).mHeight) ∧
      ∃ a b, (LoadTexturePVRTC 116 (pvrHeader 0 8 8 2 4294967212) 1).uploads[0]? = some a ∧
        (LoadTexturePVRTC 116 (pvrHeader 0 8 8 2 4294967212) 1).uploads[1]? = some b ∧
        ¬ (a.data < b.data)) ∧
    (((ddsHeader 0x31545844 262144 262144 2).WellFormed ∧
        1 ≤ (ddsHeader 0x31545844 262144 262144 2).mWidth ∧
        1 ≤ (ddsHeader 0x31545844 262144 262144 2).mHeight) ∧
      ∃ a b, (LoadTextureS3TC 128 (ddsHeader 0x31545844 262144 262144 2) 1).uploads[0]? = some a ∧
        (LoadTextureS3TC 128 (ddsHeader 0x31545844 262144 262144 2) 1).uploads[1]? = some b ∧
        ¬ (a.data < b.data)) := by
  rw [LoadTexturePVRTC_uploads 116 (pvrHeader 0 8 8 2 4294967212) 1
    GL_COMPRESSED_RGB_PVRTC_2BPPV1_IMG 2 rfl,
    LoadTextureS3TC_uploads 128 (ddsHeader 0x31545844 262144 262144 2) 1
      GL_COMPRESSED_RGBA_S3TC_DXT1_EXT 8 rfl]
  exact ⟨⟨⟨by decide, by decide, by decide⟩,
      ⟨GL_TEXTURE_2D, 0, GL_COMPRESSED_RGB_PVRTC_2BPPV1_IMG, 8, 8, 0, 32, 4294967264⟩,
      ⟨GL_TEXTURE_2D, 1, GL_COMPRESSED_RGB_PVRTC_2BPPV1_IMG, 4, 4, 0, 32, 0⟩,
      by decide, by decide, by decide⟩,
    ⟨⟨by decide, by decide, by decide⟩,
      ⟨GL_TEXTURE_2D, 0, GL_COMPRESSED_RGBA_S3TC_DXT1_EXT, 262144, 262144, 0, 0, 128⟩,
      ⟨GL_TEXTURE_2D, 1, GL_COMPRESSED_RGBA_S3TC_DXT1_EXT, 131072, 131072, 0, 0, 128⟩,
      by decide, by decide, by decide⟩⟩

/-- C13 (amended): for every header with width >= 1 and height >= 1 that `LoadTexturePVRTC`
or `LoadTextureS3TC` accepts and whose level data stays below 2^32 bytes (PVR:
52 + metaDataSize + the byteSizes of all uploaded levels < 2^32; DDS: the sum over the
uploaded levels of ceil(w/4)*ceil(h/4)*blockSize < 2^32), the byte offsets of the uploaded
levels are strictly increasing in level order and the byte ranges of distinct levels do not
overlap. For PVR the condition on width and height is not needed. -/
theorem C13_offsets_increasing (pvrFileSize ddsFileSize : Nat) (pvr : PVRHeaderV3)
    (dds : DDSHeader) (handle : Nat) (hp : pvr.mPixelFormat < 4)
    (hd : dds.mPixelFormat.mFourCC = 0x31545844 ∨ dds.mPixelFormat.mFourCC = 0x33545844 ∨
      dds.mPixelFormat.mFourCC = 0x35545844)
    (hdw : 1 ≤ dds.mWidth) (hdh : 1 ≤ dds.mHeight)
    (hpt : 52 + pvr.mMetaDataSize +
      ((LoadTexturePVRTC pvrFileSize pvr handle).uploads.map (fun u => u.imageSize)).sum
        < 4294967296)
    (hdt : ((LoadTextureS3TC ddsFileSize dds handle).uploads.map
        (fun u => ceilDiv4 u.width * ceilDiv4 u.height
          * s3tcBlockSize dds.mPixelFormat.mFourCC)).sum < 4294967296) :
    (∀ (i j : Nat) (a b : CompressedTexImage2D), i < j →
      (LoadTexturePVRTC pvrFileSize pvr handle).uploads[i]? = some a →
      (LoadTexturePVRTC pvrFileSize pvr handle).uploads[j]? = some b →
      a.data < b.data ∧ a.data + a.imageSize ≤ b.data) ∧
    (∀ (i j : Nat) (a b : CompressedTexImage2D), i < j →
      (LoadTextureS3TC ddsFileSize dds handle).uploads[i]? = some a →
      (LoadTextureS3TC ddsFileSize dds handle).uploads[j]? = some b →
      a.data < b.data ∧ a.data + a.imageSize ≤ b.data) := by
  obtain ⟨pf, hpf⟩ := pvrtcFormat_of_lt _ hp
  obtain ⟨df, hdf⟩ := s3tcFormat_of_code _ hd
  have h52 : sizeof_PVRHeaderV3 = 52 := by decide
  have hbs : 8 ≤ s3tcBlockSize dds.mPixelFormat.mFourCC := by
    rcases s3tcBlockSize_cases dds.mPixelFormat.mFourCC with h | h <;> omega
  constructor
  · rw [LoadTexturePVRTC_uploads _ _ _ _ _ hpf] at hpt ⊢
    rw [map_imageSize_range_map_levelAt, sum_range_map_eq_cumSize] at hpt
    have hoff : (sizeof_PVRHeaderV3 + pvr.mMetaDataSize) % 4294967296
        = 52 + pvr.mMetaDataSize := by
      rw [h52]
      exact Nat.mod_eq_of_lt (by omega)
    rw [hoff]
    intro i j a b hij ha hb
    obtain ⟨-, rfl⟩ := of_getElem?_range_map_levelAt _ _ _ _ _ _ _ _ _ _ ha
    obtain ⟨hjn, rfl⟩ := of_getElem?_range_map_levelAt _ _ _ _ _ _ _ _ _ _ hb
    refine levelAt_ordered _ _ _ _ _ _ _ _ _ _ hij hjn hpt (fun k _ => ?_)
    have := pvrtcSize_eq (pvrtcBitsPerPixel pvr.mPixelFormat)
      (dimAt pvr.mWidth k) (dimAt pvr.mHeight k)
    omega
  · rw [LoadTextureS3TC_uploads _ _ _ _ _ hdf] at hdt ⊢
    have hmap : ((List.range (max 1 dds.mMipMapCount)).map
        (levelAt (s3tcSize (s3tcBlockSize dds.mPixelFormat.mFourCC)) sizeof_DDSHeader df 0
          dds.mWidth dds.mHeight 0)).map
          (fun u => ceilDiv4 u.width * ceilDiv4 u.height
            * s3tcBlockSize dds.mPixelFormat.mFourCC)
        = (List.range (max 1 dds.mMipMapCount)).map
            (fun l => ceilDiv4 (dimAt dds.mWidth l) * ceilDiv4 (dimAt dds.mHeight l)
              * s3tcBlockSize dds.mPixelFormat.mFourCC) := by
      rw [List.map_map]
      rfl
    rw [hmap, sum_range_map_eq_cumSize] at hdt
    have hexact : ∀ k, k < max 1 dds.mMipMapCount →
        s3tcSize (s3tcBlockSize dds.mPixelFormat.mFourCC) (dimAt dds.mWidth k)
            (dimAt dds.mHeight k)
          = ceilDiv4 (dimAt dds.mWidth k) * ceilDiv4 (dimAt dds.mHeight k)
              * s3tcBlockSize dds.mPixelFormat.mFourCC := by
      intro k hk
      have hle := le_cumSize (fun l => ceilDiv4 (dimAt dds.mWidth l)
        * ceilDiv4 (dimAt dds.mHeight l) * s3tcBlockSize dds.mPixelFormat.mFourCC) _ k hk
      exact s3tcSize_eq_of_lt _ _ _ hbs (Nat.lt_of_le_of_lt hle hdt)
    have hcum := cumSize_congr
      (fun l => s3tcSize (s3tcBlockSize dds.mPixelFormat.mFourCC) (dimAt dds.mWidth l)
        (dimAt dds.mHeight l))
      (fun l => ceilDiv4 (dimAt dds.mWidth l) * ceilDiv4 (dimAt dds.mHeight l)
        * s3tcBlockSize dds.mPixelFormat.mFourCC) (max 1 dds.mMipMapCount) hexact
    intro i j a b hij ha hb
    obtain ⟨-, rfl⟩ := of_getElem?_range_map_levelAt _ _ _ _ _ _ _ _ _ _ ha
    obtain ⟨hjn, rfl⟩ := of_getElem?_range_map_levelAt _ _ _ _ _ _ _ _ _ _ hb
    refine levelAt_ordered _ _ _ _ _ _ _ _ _ _ hij hjn (by rw [hcum]; omega) (fun k hk => ?_)
    rw [hexact k hk]
    have h1 := ceilDiv4_pos _ (dimAt_pos dds.mWidth k hdw)
    have h2 := ceilDiv4_pos _ (dimAt_pos dds.mHeight k hdh)
    exact Nat.mul_pos (Nat.mul_pos h1 h2) (by omega)

/-- C13 witness: the complete three-level 64 x 64 PVR asset (levels at 52, 2100, 2612) and
the complete three-level 16 x 16 DXT5 asset (levels at 128, 384, 448). -/
theorem C13_offsets_increasing_witness :
    ((pvrHeader 2 64 64 3 0).mPixelFormat < 4 ∧
      ((ddsHeader 0x35545844 16 16 3).mPixelFormat.mFourCC = 0x31545844 ∨
        (ddsHeader 0x35545844 16 16 3).mPixelFormat.mFourCC = 0x33545844 ∨
        (ddsHeader 0x35545844 16 16 3).mPixelFormat.mFourCC = 0x35545844) ∧
      1 ≤ (ddsHeader 0x35545844 16 16 3).mWidth ∧ 1 ≤ (ddsHeader 0x35545844 16 16 3).mHeight) ∧
      52 + (pvrHeader 2 64 64 3 0).mMetaDataSize +
        ((LoadTexturePVRTC 2740 (pvrHeader 2 64 64 3 0) 1).uploads.map
          (fun u => u.imageSize)).sum < 4294967296 ∧
      ((LoadTextureS3TC 464 (ddsHeader 0x35545844 16 16 3) 1).uploads.map
        (fun u => ceilDiv4 u.width * ceilDiv4 u.height
          * s3tcBlockSize (ddsHeader 0x35545844 16 16 3).mPixelFormat.mFourCC)).sum
        < 4294967296 ∧
      ((LoadTexturePVRTC 2740 (pvrHeader 2 64 64 3 0) 1).uploads[0]?
          = some ⟨GL_TEXTURE_2D, 0, GL_COMPRESSED_RGB_PVRTC_4BPPV1_IMG, 64, 64, 0, 2048, 52⟩ ∧
        (LoadTexturePVRTC 2740 (pvrHeader 2 64 64 3 0) 1).uploads[2]?
          = some ⟨GL_TEXTURE_2D, 2, GL_COMPRESSED_RGB_PVRTC_4BPPV1_IMG, 16, 16, 0, 128, 2612⟩ ∧
        ((52 : Nat) < 2612 ∧ 52 + 2048 ≤ 2612)) ∧
      ((LoadTextureS3TC 464 (ddsHeader 0x35545844 16 16 3) 1).uploads[1]?
          = some ⟨GL_TEXTURE_2D, 1, GL_COMPRESSED_RGBA_S3TC_DXT5_EXT, 8, 8, 0, 64, 384⟩ ∧
        (LoadTextureS3TC 464 (ddsHeader 0x35545844 16 16 3) 1).uploads[2]?
          = some ⟨GL_TEXTURE_2D, 2, GL_COMPRESSED_RGBA_S3TC_DXT5_EXT, 4, 4, 0, 16, 448⟩ ∧
        ((384 : Nat) < 448 ∧ 384 + 64 ≤ 448)) :=
  have hpt : 52 + (pvrHeader 2 64 64 3 0).mMetaDataSize +
      ((LoadTexturePVRTC 2740 (pvrHeader 2 64 64 3 0) 1).uploads.map
        (fun u => u.imageSize)).sum < 4294967296 := by
    rw [LoadTexturePVRTC_uploads 2740 (pvrHeader 2 64 64 3 0) 1
      GL_COMPRESSED_RGB_PVRTC_4BPPV1_IMG 4 rfl]
    decide
  have hdt : ((LoadTextureS3TC 464 (ddsHeader 0x35545844 16 16 3) 1).uploads.map
      (fun u => ceilDiv4 u.width * ceilDiv4 u.height
        * s3tcBlockSize (ddsHeader 0x35545844 16 16 3).mPixelFormat.mFourCC)).sum
      < 4294967296 := by
    rw [LoadTextureS3TC_uploads 464 (ddsHeader 0x35545844 16 16 3) 1
      GL_COMPRESSED_RGBA_S3TC_DXT5_EXT 16 rfl]
    decide
  have hp0 : (LoadTexturePVRTC 2740 (pvrHeader 2 64 64 3 0) 1).uploads[0]?
      = some ⟨GL_TEXTURE_2D, 0, GL_COMPRESSED_RGB_PVRTC_4BPPV1_IMG, 64, 64, 0, 2048, 52⟩ := by
    rw [LoadTexturePVRTC_uploads 2740 (pvrHeader 2 64 64 3 0) 1
      GL_COMPRESSED_RGB_PVRTC_4BPPV1_IMG 4 rfl]
    decide
  have hp2 : (LoadTexturePVRTC 2740 (pvrHeader 2 64 64 3 0) 1).uploads[2]?
      = some ⟨GL_TEXTURE_2D, 2, GL_COMPRESSED_RGB_PVRTC_4BPPV1_IMG, 16, 16, 0, 128, 2612⟩ := by
    rw [LoadTexturePVRTC_uploads 2740 (pvrHeader 2 64 64 3 0) 1
      GL_COMPRESSED_RGB_PVRTC_4BPPV1_IMG 4 rfl]
    decide
  have hd1 : (LoadTextureS3TC 464 (ddsHeader 0x35545844 16 16 3) 1).uploads[1]?
      = some ⟨GL_TEXTURE_2D, 1, GL_COMPRESSED_RGBA_S3TC_DXT5_EXT, 8, 8, 0, 64, 384⟩ := by
    rw [LoadTextureS3TC_uploads 464 (ddsHeader 0x35545844 16 16 3) 1
      GL_COMPRESSED_RGBA_S3TC_DXT5_EXT 16 rfl]
    decide
  have hd2 : (LoadTextureS3TC 464 (ddsHeader 0x35545844 16 16 3) 1).uploads[2]?
      = some ⟨GL_TEXTURE_2D, 2, GL_COMPRESSED_RGBA_S3TC_DXT5_EXT, 4, 4, 0, 16, 448⟩ := by
    rw [LoadTextureS3TC_uploads 464 (ddsHeader 0x35545844 16 16 3) 1
      GL_COMPRESSED_RGBA_S3TC_DXT5_EXT 16 rfl]
    decide
  have h := C13_offsets_increasing 2740 464 (pvrHeader 2 64 64 3 0)
    (ddsHeader 0x35545844 16 16 3) 1 (by decide) (Or.inr (Or.inr rfl)) (by decide) (by decide)
    hpt hdt
  ⟨⟨by decide, Or.inr (Or.inr rfl), by decide, by decide⟩, hpt, hdt,
    ⟨hp0, hp2, h.1 0 2 _ _ (by decide) hp0 hp2⟩,
    ⟨hd1, hd2, h.2 1 2 _ _ (by decide) hd1 hd2⟩⟩

end ETC2TextureLoader
